import Mathlib

/-!
Shallow embedding of the Recom-LLM recommendation core
(LLM-and-Recommendation-Sys) and proofs about its specification claims.

Text is modelled as List Char (Python str); Python float arithmetic is
idealized as exact rational arithmetic over Rat; fallible code (code that can
raise) returns Option or Except; dictionaries are association lists with
Python insert-or-overwrite semantics.  Every definition is translated from
the repository source; doc comments name the source file and symbol.
-/

/-- Str is the model of a Python string: a list of characters. -/
abbrev Str : Type := List Char

/-- sOf converts a Lean string literal into the Str model. -/
def sOf (s : String) : Str := s.data

/-- lowc models Python str.lower on one ASCII character. -/
def lowc (c : Char) : Char :=
  if 'A' ≤ c ∧ c ≤ 'Z' then Char.ofNat (c.toNat + 32) else c

/-- lowerStr models Python str.lower (ASCII data only in this repository). -/
def lowerStr (s : Str) : Str := List.map lowc s

/-- isLowerAscii is the character class a-z used by the regexes in the source. -/
def isLowerAscii (c : Char) : Bool := 'a' ≤ c ∧ c ≤ 'z'

/-- isUpperAscii is the character class A-Z used by the regexes in the source. -/
def isUpperAscii (c : Char) : Bool := 'A' ≤ c ∧ c ≤ 'Z'

/-- isAlnumAscii is the character class A-Za-z0-9. -/
def isAlnumAscii (c : Char) : Bool :=
  isLowerAscii c ∨ isUpperAscii c ∨ ('0' ≤ c ∧ c ≤ '9')

/-- containsSub hay needle models the Python substring test needle in hay. -/
def containsSub (hay needle : Str) : Bool :=
  if List.isPrefixOf needle hay then true else
    match hay with
    | [] => false
    | _ :: t => containsSub t needle

/-- camelSpace models re.sub between a lowercase and an uppercase letter,
inserting a space (used by the allergen fallback and the tokenizer). -/
def camelSpace : Str → Str
  | [] => []
  | [c] => [c]
  | a :: b :: t =>
    if isLowerAscii a ∧ isUpperAscii b then a :: ' ' :: camelSpace (b :: t)
    else a :: camelSpace (b :: t)

/-- isWs is the whitespace test used to model Python str.strip. -/
def isWs (c : Char) : Bool := c = ' '

/-- stripWs models Python str.strip (leading and trailing whitespace). -/
def stripWs (s : Str) : Str :=
  ((List.dropWhile isWs s).reverse.dropWhile isWs).reverse

/-- wordsAux accumulates the current word (reversed) while splitting on
spaces, dropping empty chunks, modelling Python str.split(). -/
def wordsAux (cur : Str) : Str → List Str
  | [] => if cur = [] then [] else [cur.reverse]
  | c :: t =>
    if c = ' ' then
      if cur = [] then wordsAux [] t else cur.reverse :: wordsAux [] t
    else wordsAux (c :: cur) t

/-- splitWords models Python str.split() on space-normalized text. -/
def splitWords (s : Str) : List Str := wordsAux [] s

/-- dictGet models Python dict.get on an association list. -/
def dictGet {β : Type} (d : List (Str × β)) (k : Str) : Option β :=
  (d.find? (fun kv => kv.1 = k)).map (fun kv => kv.2)

/-- dictInsert models Python dict assignment d[k] = v: the first entry with
key k is overwritten in place, otherwise the pair is appended. -/
def dictInsert {β : Type} (d : List (Str × β)) (k : Str) (v : β) : List (Str × β) :=
  match d with
  | [] => [(k, v)]
  | (k0, v0) :: rest =>
    if k0 = k then (k0, v) :: rest else (k0, v0) :: dictInsert rest k v

/-- dictAdd models the accumulation idiom d[k] = d.get(k, 0) + v. -/
def dictAdd (d : List (Str × ℚ)) (k : Str) (v : ℚ) : List (Str × ℚ) :=
  dictInsert d k ((dictGet d k).getD 0 + v)

/-! ## Mapping tables (recommendation_system/mapping.py) -/

/-- BeautyPreferencesSkinType from recommendation_system/mapping.py. -/
def BeautyPreferencesSkinType : List (ℕ × Str) :=
  [(1, sOf "Combination"), (2, sOf "Dry"), (3, sOf "Normal"), (4, sOf "Oily"),
   (5, sOf "Sensitive"), (6, sOf "DryAndSensitive"), (7, sOf "OilAndSensitive"),
   (8, sOf "CombinationSensitive")]

/-- BeautyPreferencesSkinConcern from recommendation_system/mapping.py. -/
def BeautyPreferencesSkinConcern : List (ℕ × Str) :=
  [(1, sOf "AcneBlemishes"), (2, sOf "Moisture"), (3, sOf "Pores"),
   (4, sOf "FineLinesWrinkles"), (5, sOf "DarkCircles"), (6, sOf "Redness"),
   (7, sOf "Oiliness"), (8, sOf "Dryness"), (9, sOf "Sensitivity"),
   (10, sOf "UnevenSkinTone"), (11, sOf "Texture"), (12, sOf "FirmnessElasticity"),
   (13, sOf "DarkSpotsHyperpigmentation"), (14, sOf "DullnessRadiance"),
   (15, sOf "Puffiness"), (16, sOf "SunDamage"), (17, sOf "LossOfVolume"),
   (18, sOf "Cellulite"), (19, sOf "StretchMarks"), (20, sOf "KeratosisPilaris"),
   (21, sOf "Eczema"), (22, sOf "Rosacea")]

/-- AllergenicIngredients from recommendation_system/mapping.py. -/
def AllergenicIngredients : List (ℕ × Str) :=
  [(1, sOf "FragrancesAndPerfumes"), (2, sOf "Preservatives"),
   (3, sOf "SunscreenAgents"), (4, sOf "SurfactantsAndEmulsifiers"),
   (5, sOf "ColorantsAndDyes"), (6, sOf "PlantBasedAllergens"),
   (7, sOf "AlcoholsAndAcids"), (8, sOf "AnimalDerivedIngredients"),
   (9, sOf "OtherCommonAllergens"),
   (100, sOf "FragranceParfum"), (101, sOf "Linalool"), (102, sOf "Citronellol"),
   (103, sOf "Geraniol"), (104, sOf "Eugenol"), (105, sOf "Cinnamal"),
   (106, sOf "Hydroxycitronellal"),
   (107, sOf "Methylparaben"), (108, sOf "Propylparaben"), (109, sOf "DMDMHydantoin"),
   (110, sOf "ImidazolidinylUrea"), (111, sOf "Quaternium15"), (112, sOf "Phenoxyethanol"),
   (113, sOf "Methylisothiazolinone"), (114, sOf "Methylchloroisothiazolinone"),
   (115, sOf "BenzylAlcohol"), (116, sOf "Formaldehyde"),
   (117, sOf "Oxybenzone"), (118, sOf "Avobenzone"), (119, sOf "Octinoxate"),
   (120, sOf "Homosalate"), (121, sOf "PABA"),
   (122, sOf "CocamidopropylBetaine"), (123, sOf "SodiumLaurylSulfate"),
   (124, sOf "Polysorbates"), (125, sOf "AmmoniumLaurylSulfate"),
   (126, sOf "FDCRed40"), (127, sOf "FDCYellow5"), (128, sOf "CoalTarDyes"),
   (129, sOf "Chromium"), (130, sOf "Cobalt"),
   (131, sOf "TeaTreeOil"), (132, sOf "LavenderOil"), (133, sOf "PeppermintOil"),
   (134, sOf "EucalyptusOil"), (135, sOf "LemonOil"), (136, sOf "LimeOil"),
   (137, sOf "OrangeOil"), (138, sOf "Arnica"), (139, sOf "WitchHazel"),
   (140, sOf "SDAlcohol"), (141, sOf "AlphaHydroxyAcids"), (142, sOf "SalicylicAcid"),
   (143, sOf "GlycolicAcid"), (144, sOf "LacticAcid"),
   (145, sOf "Lanolin"), (146, sOf "Beeswax"),
   (147, sOf "AlmondOil"), (148, sOf "PeanutOil"), (149, sOf "CoconutOil"),
   (150, sOf "Nickel"), (151, sOf "Latex"), (152, sOf "EssentialOils")]

/-- lookupId models Python dict.get over the id-keyed enumeration tables. -/
def lookupId (t : List (ℕ × Str)) (i : ℕ) : Option Str :=
  (t.find? (fun kv => kv.1 = i)).map (fun kv => kv.2)

/-- SpecialMapping is one entry of SPECIAL_MAPPINGS: the concern names (and,
in general, skin-type names) an analysis type expands to. -/
structure SpecialMapping where
  concerns : List Str
  skinTypes : List Str

/-- SPECIAL_MAPPINGS from recommendation_system/mapping.py; every entry in the
source has only a concerns key, so skinTypes is empty throughout. -/
def SPECIAL_MAPPINGS : List (Str × SpecialMapping) :=
  [(sOf "eyebag", ⟨[sOf "darkcircles", sOf "puffiness"], []⟩),
   (sOf "wrinkle", ⟨[sOf "finelineswrinkles", sOf "firmnesselasticity"], []⟩),
   (sOf "acne", ⟨[sOf "acneblemishes", sOf "oiliness"], []⟩),
   (sOf "blemish", ⟨[sOf "acneblemishes"], []⟩),
   (sOf "darkspots", ⟨[sOf "darkspotshyperpigmentation", sOf "unevenskintone"], []⟩),
   (sOf "hydration", ⟨[sOf "moisture", sOf "dryness"], []⟩),
   (sOf "rosacea", ⟨[sOf "rosacea", sOf "redness", sOf "sensitivity"], []⟩)]

/-- concernNameToId models get_name_mappings in
recommendation_system/analysis_filter.py: lowercased concern name to id. -/
def concernNameToId : List (Str × ℕ) :=
  BeautyPreferencesSkinConcern.map (fun kv => (lowerStr kv.2, kv.1))

/-- skinTypeNameToId models get_name_mappings in
recommendation_system/analysis_filter.py: lowercased skin-type name to id. -/
def skinTypeNameToId : List (Str × ℕ) :=
  BeautyPreferencesSkinType.map (fun kv => (lowerStr kv.2, kv.1))

/-- lookupName looks a lowercased name up in a reverse mapping table. -/
def lookupName (t : List (Str × ℕ)) (s : Str) : Option ℕ :=
  (t.find? (fun kv => kv.1 = s)).map (fun kv => kv.2)

/-! ## Allergen detector (recommendation_system/preference_rec/allergen_detector.py) -/

/-- AllergenPattern mirrors the dataclass of the same name: primary terms,
alternative names and scientific names for one allergen. -/
structure AllergenPattern where
  primary_terms : List Str
  alternative_names : List Str
  scientific_names : List Str

/-- known_patterns is the AllergenDetector pattern database, transcribed from
recommendation_system/preference_rec/allergen_detector.py. -/
def known_patterns : List (Str × AllergenPattern) :=
  [(sOf "fragranceparfum",
    ⟨[sOf "fragrance", sOf "parfum", sOf "perfume"], [sOf "scent", sOf "aroma"], []⟩),
   (sOf "fragrancesandperfumes",
    ⟨[sOf "fragrance", sOf "parfum", sOf "perfume"], [sOf "scent", sOf "aroma"], []⟩),
   (sOf "teatreeoil",
    ⟨[sOf "tea tree", sOf "tea tree oil"], [sOf "ti tree"],
     [sOf "melaleuca alternifolia", sOf "melaleuca"]⟩),
   (sOf "lavenderoil",
    ⟨[sOf "lavender", sOf "lavender oil"], [],
     [sOf "lavandula", sOf "lavandula angustifolia"]⟩),
   (sOf "peppermintoil",
    ⟨[sOf "peppermint", sOf "peppermint oil"], [], [sOf "mentha piperita", sOf "mentha"]⟩),
   (sOf "eucalyptusoil", ⟨[sOf "eucalyptus", sOf "eucalyptus oil"], [], []⟩),
   (sOf "lemonoil", ⟨[sOf "lemon oil"], [], [sOf "citrus limon"]⟩),
   (sOf "limeoil", ⟨[sOf "lime oil"], [], [sOf "citrus aurantifolia"]⟩),
   (sOf "orangeoil", ⟨[sOf "orange oil"], [], [sOf "citrus aurantium", sOf "citrus sinensis"]⟩),
   (sOf "methylparaben",
    ⟨[sOf "methylparaben", sOf "methyl paraben"], [sOf "methyl 4-hydroxybenzoate"], []⟩),
   (sOf "propylparaben",
    ⟨[sOf "propylparaben", sOf "propyl paraben"], [sOf "propyl 4-hydroxybenzoate"], []⟩),
   (sOf "sdalcohol",
    ⟨[sOf "sd alcohol", sOf "alcohol denat"], [sOf "denatured alcohol", sOf "ethyl alcohol"], []⟩),
   (sOf "benzylalcohol", ⟨[sOf "benzyl alcohol"], [], []⟩),
   (sOf "salicylicacid", ⟨[sOf "salicylic acid"], [sOf "bha", sOf "beta hydroxy acid"], []⟩),
   (sOf "glycolicacid", ⟨[sOf "glycolic acid"], [sOf "aha"], []⟩),
   (sOf "lacticacid", ⟨[sOf "lactic acid"], [sOf "aha"], []⟩),
   (sOf "alphahydroxyacids",
    ⟨[sOf "aha", sOf "alpha hydroxy acid"],
     [sOf "glycolic acid", sOf "lactic acid", sOf "citric acid"], []⟩),
   (sOf "sodiumlaurylsulfate",
    ⟨[sOf "sodium lauryl sulfate"], [sOf "sls", sOf "sodium dodecyl sulfate"], []⟩),
   (sOf "cocamidopropylbetaine", ⟨[sOf "cocamidopropyl betaine"], [sOf "capb"], []⟩),
   (sOf "dmdmhydantoin", ⟨[sOf "dmdm hydantoin"], [sOf "dimethylol dimethyl hydantoin"], []⟩),
   (sOf "quaternium15",
    ⟨[sOf "quaternium-15", sOf "quaternium 15"], [sOf "quaternium 15"], []⟩),
   (sOf "witchhazel", ⟨[sOf "witch hazel"], [], [sOf "hamamelis", sOf "hamamelis virginiana"]⟩),
   (sOf "beeswax", ⟨[sOf "beeswax"], [sOf "cera alba", sOf "white wax"], []⟩),
   (sOf "almondoil",
    ⟨[sOf "almond oil"], [sOf "sweet almond oil"],
     [sOf "prunus amygdalus", sOf "prunus dulcis"]⟩),
   (sOf "peanutoil", ⟨[sOf "peanut oil"], [sOf "groundnut oil"], [sOf "arachis hypogaea"]⟩),
   (sOf "coconutoil", ⟨[sOf "coconut oil"], [], [sOf "cocos nucifera"]⟩),
   (sOf "preservatives",
    ⟨[sOf "paraben", sOf "phenoxyethanol", sOf "benzyl alcohol"],
     [sOf "preservative", sOf "antimicrobial"], []⟩),
   (sOf "sunscreenagents",
    ⟨[sOf "titanium dioxide", sOf "zinc oxide", sOf "octinoxate", sOf "avobenzone"],
     [sOf "uv filter", sOf "sunscreen", sOf "sun protection"], []⟩),
   (sOf "essentialoils",
    ⟨[sOf "essential oil"], [sOf "parfum", sOf "fragrance", sOf "natural fragrance"], []⟩)]

/-- suffixPatterns lists the suffix generators of _generate_fallback_terms in
insertion order: suffix and the number of characters it removes. -/
def suffixPatterns : List Str :=
  [sOf "oil", sOf "acid", sOf "paraben", sOf "alcohol"]

/-- generate_fallback_terms models AllergenDetector._generate_fallback_terms:
lowercased base name, camel-case spaced variant when longer, and the stripped
suffix variants for oil, acid, paraben and alcohol.  The Python source wraps
the result in list(set(...)), whose iteration order is unspecified; the model
keeps first occurrences via dedup, and every use downstream is
order-insensitive (existence of a matching term). -/
def generate_fallback_terms (allergen_name : Str) : List Str :=
  let base := lowerStr allergen_name
  let spaced := lowerStr (camelSpace allergen_name)
  let terms1 := [base]
  let terms2 := if spaced ≠ base ∧ base.length < spaced.length then terms1 ++ [spaced] else terms1
  let terms3 := suffixPatterns.foldl
    (fun acc suf =>
      if List.isSuffixOf suf base ∧ suf.length + 2 < base.length then
        let stripped := stripWs (base.take (base.length - suf.length))
        acc ++ [stripped, stripped ++ (' ' :: suf)]
      else acc) terms2
  terms3.dedup

/-- generate_search_terms models AllergenDetector.generate_search_terms: the
known-pattern terms (primary, alternative, scientific) when the lowercased
name is in the database, else the fallback generator.  list(set(...)) is
modelled by dedup as above. -/
def generate_search_terms (allergen_name : Str) : List Str :=
  match dictGet known_patterns (lowerStr allergen_name) with
  | some pat =>
    (pat.primary_terms ++ pat.alternative_names ++ pat.scientific_names).dedup
  | none => generate_fallback_terms allergen_name

/-- detect_allergens models AllergenDetector.detect_allergens: the excluded
allergens whose search terms occur in the lowercased product content. -/
def detect_allergens (product_content : Str) (excluded_allergens : List Str) : List Str :=
  let content_lower := lowerStr product_content
  excluded_allergens.filter
    (fun allergen => (generate_search_terms allergen).any (fun t => containsSub content_lower t))

/-- is_safe_for_user models AllergenDetector.is_safe_for_user: true exactly
when no excluded allergen is detected in the product content. -/
def is_safe_for_user (product_content : Str) (excluded_allergens : List Str) : Bool :=
  (detect_allergens product_content excluded_allergens).length = 0

/-! ## Rule-scoring filter module (recommendation_system/analysis_filter.py) -/

/-- CatalogProduct models one product dict from products_data, with the fields
read by analysis_filter.py.  A missing or falsy id is modelled as 0. -/
structure CatalogProduct where
  id : ℕ
  name : Str
  description : Str
  keyBenefits : Str
  contents : Str
  activeContent : Str
  concerns : List ℕ
  skinTypes : List ℕ
deriving DecidableEq

/-- UserPreferences models the user-preference dict with the fields read by
the rule scorer and by _map_pref_concerns; absent scalar fields default to 0
and absent list fields to the empty list, matching dict.get defaults. -/
structure UserPreferences where
  skinType : ℕ
  skinConcerns : List ℕ
  allergenicIngredients : List ℕ
  ageRange : ℕ
  skinTone : ℕ
  fragrancePreferences : List ℕ
  hairType : List ℕ
  shoppingPreferences : List ℕ
  eyeColor : ℕ
  hairColor : ℕ
  favoriteBrands : ℕ
deriving DecidableEq

/-- emptyPrefs is the all-unset preference record (the empty dict). -/
def emptyPrefs : UserPreferences := ⟨0, [], [], 0, 0, [], [], [], 0, 0, 0⟩

/-- product_content is the concatenated contents and activeContent text
checked by _is_product_safe_for_user. -/
def product_content (p : CatalogProduct) : Str :=
  p.contents ++ (' ' :: p.activeContent)

/-- is_product_safe_for_user models _is_product_safe_for_user in
recommendation_system/analysis_filter.py.  The source maps every non-zero
declared allergen id through AllergenicIngredients.get, which yields None for
an id absent from the enumeration; such a None is kept in the list and later
passed to AllergenDetector.generate_search_terms, where None.lower() raises
AttributeError.  The raised exception is modelled as the result none. -/
def is_product_safe_for_user (p : CatalogProduct) (u : UserPreferences) : Option Bool :=
  let user_allergens := u.allergenicIngredients
  if user_allergens = [] ∨ user_allergens = [0] then some true
  else
    let allergen_names :=
      (user_allergens.filter (fun a => a ≠ 0)).map (fun a => lookupId AllergenicIngredients a)
    if allergen_names = [] then some true
    else if allergen_names.contains none then none
    else some (is_safe_for_user (product_content p) allergen_names.reduceOption)

/-- skin_type_score is the CRITICAL-tier skin-type test: the declared type is
among the product skin types, or the product is typed 1, meaning All. -/
def skin_type_score (p : CatalogProduct) (st : ℕ) : ℚ :=
  if st ∈ p.skinTypes ∨ 1 ∈ p.skinTypes then 1 else 0

/-- concern_overlap_score is the CRITICAL-tier concern-overlap term of
_score_critical_preferences: the fraction of distinct declared non-zero
concerns present on the product, or 0 when the intersection is empty. -/
def concern_overlap_score (p : CatalogProduct) (userConcerns : List ℕ) : ℚ :=
  let uset := (userConcerns.filter (fun c => c ≠ 0)).dedup
  let inter := uset.filter (fun c => c ∈ p.concerns)
  if inter ≠ [] then (inter.length : ℚ) / (uset.length : ℚ) else 0

/-- score_critical_preferences models _score_critical_preferences: the
average of the skin-type and concern sub-scores over the dimensions the user
actually declared (skinType 0 and skinConcerns [] or [0] are not counted). -/
def score_critical_preferences (p : CatalogProduct) (u : UserPreferences) : ℚ :=
  let s1 : ℚ × ℕ := if u.skinType ≠ 0 then (skin_type_score p u.skinType, 1) else (0, 0)
  let s2 : ℚ × ℕ :=
    if u.skinConcerns ≠ [] ∧ u.skinConcerns ≠ [0] then
      (s1.1 + concern_overlap_score p u.skinConcerns, s1.2 + 1)
    else s1
  if 0 < s2.2 then s2.1 / (s2.2 : ℚ) else 0

/-- age_keywords transcribes the age_keywords table of
_score_high_preferences, keyed by AgeRange id. -/
def age_keywords (n : ℕ) : List Str :=
  match n with
  | 1 => [sOf "teen", sOf "young", sOf "gentle", sOf "acne"]
  | 2 => [sOf "daily", sOf "hydrating", sOf "preventive"]
  | 3 => [sOf "anti-aging", sOf "preventive", sOf "firming"]
  | 4 => [sOf "anti-aging", sOf "firming", sOf "mature"]
  | 5 => [sOf "anti-aging", sOf "intensive", sOf "renewal"]
  | _ => []

/-- high_product_text is the lowercased name, description and keyBenefits
text scanned by the age-keyword heuristic. -/
def high_product_text (p : CatalogProduct) : Str :=
  lowerStr (p.name ++ (' ' :: p.description) ++ (' ' :: p.keyBenefits))

/-- score_high_preferences models _score_high_preferences: the age-keyword
match fraction (capped at 1) and a neutral 0.5 for a declared skin tone,
averaged over the declared dimensions. -/
def score_high_preferences (p : CatalogProduct) (u : UserPreferences) : ℚ :=
  let text := high_product_text p
  let s1 : ℚ × ℕ :=
    if u.ageRange ≠ 0 then
      let keywords := age_keywords u.ageRange
      if keywords ≠ [] then
        let mcount := (keywords.filter (fun k => containsSub text k)).length
        (min ((mcount : ℚ) / (keywords.length : ℚ)) 1, 1)
      else (0, 1)
    else (0, 0)
  let s2 : ℚ × ℕ := if u.skinTone ≠ 0 then (s1.1 + 1/2, s1.2 + 1) else s1
  if 0 < s2.2 then s2.1 / (s2.2 : ℚ) else 0

/-- mediumDeclared is the medium-tier presence test user_pref and
user_pref != [0] on a list-valued preference. -/
def mediumDeclared (l : List ℕ) : Bool := l ≠ [] ∧ l ≠ [0]

/-- score_medium_preferences models _score_medium_preferences: each declared
medium preference (fragrance, hair type, shopping) contributes the flat 0.3,
averaged over the declared dimensions. -/
def score_medium_preferences (u : UserPreferences) : ℚ :=
  let declared :=
    ([u.fragrancePreferences, u.hairType, u.shoppingPreferences].filter mediumDeclared).length
  if 0 < declared then ((declared : ℚ) * (3/10)) / (declared : ℚ) else 0

/-- score_low_preferences models _score_low_preferences: each declared low
preference (eye color, hair color, favorite brands) contributes the flat 0.2,
averaged over the declared dimensions. -/
def score_low_preferences (u : UserPreferences) : ℚ :=
  let declared := ([u.eyeColor, u.hairColor, u.favoriteBrands].filter (fun v => v ≠ 0)).length
  if 0 < declared then ((declared : ℚ) * (1/5)) / (declared : ℚ) else 0

/-- calculate_preference_score models _calculate_preference_score: the
priority-weighted tier total, capped at 1. -/
def calculate_preference_score (p : CatalogProduct) (u : UserPreferences) : ℚ :=
  let total :=
    score_critical_preferences p u * (2/5) + score_high_preferences p u * (3/10) +
      score_medium_preferences u * (1/5) + score_low_preferences u * (1/10)
  min total 1

/-- find_matching_ids models find_matching_ids in analysis_filter.py: the
special-mappings table is consulted first for the lowercased analysis type;
otherwise the type is looked up directly as a concern and as a skin type. -/
def find_matching_ids (analysis_type : Str) : List ℕ × List ℕ :=
  let analysis_lower := lowerStr analysis_type
  match dictGet SPECIAL_MAPPINGS analysis_lower with
  | some m =>
    (m.concerns.filterMap (fun n => lookupName concernNameToId n),
     m.skinTypes.filterMap (fun n => lookupName skinTypeNameToId n))
  | none =>
    ((lookupName concernNameToId analysis_lower).toList,
     (lookupName skinTypeNameToId analysis_lower).toList)

/-- AnalysisItem models one entry of skin_analysis_data['data']. -/
structure AnalysisItem where
  analysisType : Str
  confidence : ℚ
deriving DecidableEq

/-- ProductInfo models the per-product result dict built by
filter_products_by_skin_analysis_api. -/
structure ProductInfo where
  id : ℕ
  score : ℚ
  name : Str
  concernMatch : Bool
  skinTypeMatch : Bool
deriving DecidableEq

/-- sortByScoreDesc models condition_products.sort(key=score, reverse=True):
a stable descending sort on the score field. -/
def sortByScoreDesc (l : List ProductInfo) : List ProductInfo :=
  List.insertionSort (fun a b => b.score ≤ a.score) l

/-- qualifyingConditions models the first loop of
filter_products_by_skin_analysis_api: analysis types whose raw confidence is
at or above the threshold (no normalization happens in this function). -/
def qualifyingConditions (data : List AnalysisItem) (threshold : ℚ) : List Str :=
  (data.filter (fun a => threshold ≤ a.confidence)).map (fun a => a.analysisType)

/-- safety_and_score combines the two preference-dependent steps of the
product loop in filter_products_by_skin_analysis_api: when preferences are
supplied a product failing _is_product_safe_for_user is skipped (some none),
a raised exception propagates (none), and a safe product is scored; without
preferences the product is kept with score 0.0. -/
def safety_and_score (prefs : Option UserPreferences) (p : CatalogProduct) :
    Option (Option ℚ) :=
  match prefs with
  | some u =>
    match is_product_safe_for_user p u with
    | none => none
    | some false => some none
    | some true => some (some (calculate_preference_score p u))
  | none => some (some 0)

/-- processProductsForCondition models the inner product loop of
filter_products_by_skin_analysis_api for one condition, threading the
recommended-id set, the condition list and the all-scored list.  A raised
exception inside _is_product_safe_for_user propagates as none. -/
def processProductsForCondition (concernIds skinTypeIds : List ℕ)
    (prefs : Option UserPreferences) (recommended : List ℕ)
    (cond allScored : List ProductInfo) :
    List CatalogProduct → Option (List ℕ × List ProductInfo × List ProductInfo)
  | [] => some (recommended, cond, allScored)
  | p :: rest =>
    if p.id = 0 then
      processProductsForCondition concernIds skinTypeIds prefs recommended cond allScored rest
    else if p.id ∈ recommended then
      processProductsForCondition concernIds skinTypeIds prefs recommended cond allScored rest
    else
      let concernMatch := concernIds.any (fun cid => cid ∈ p.concerns)
      let skinTypeMatch := skinTypeIds.any (fun sid => sid ∈ p.skinTypes)
      if concernMatch ∨ skinTypeMatch then
        match safety_and_score prefs p with
        | none => none
        | some none =>
          processProductsForCondition concernIds skinTypeIds prefs recommended cond allScored rest
        | some (some score) =>
          let info : ProductInfo := ⟨p.id, score, p.name, concernMatch, skinTypeMatch⟩
          processProductsForCondition concernIds skinTypeIds prefs (recommended ++ [p.id])
            (cond ++ [info]) (allScored ++ [info]) rest
      else
        processProductsForCondition concernIds skinTypeIds prefs recommended cond allScored rest

/-- processConditions models the outer condition loop of
filter_products_by_skin_analysis_api: per condition the matching ids are
computed, the product loop runs (only when some id matched), the condition
list is sorted when preferences are present, truncated, and stored. -/
def processConditions (products : List CatalogProduct) (prefs : Option UserPreferences)
    (maxPer : ℕ) (recommended : List ℕ) (allScored : List ProductInfo)
    (results : List (Str × List ProductInfo)) :
    List Str → Option (List ProductInfo × List (Str × List ProductInfo))
  | [] => some (allScored, results)
  | c :: cs =>
    let ids := find_matching_ids c
    let step :=
      if ids.1 ≠ [] ∨ ids.2 ≠ [] then
        processProductsForCondition ids.1 ids.2 prefs recommended [] allScored products
      else some (recommended, [], allScored)
    match step with
    | none => none
    | some (rec2, condProducts, all2) =>
      let sorted :=
        if prefs.isSome ∧ condProducts ≠ [] then sortByScoreDesc condProducts else condProducts
      let limited := sorted.take maxPer
      processConditions products prefs maxPer rec2 all2 (dictInsert results c limited) cs

/-- filter_products_by_skin_analysis_api models the function of the same name
in recommendation_system/analysis_filter.py with return_format detailed; the
result dict maps each qualifying condition to its product list, plus a
top_score entry when preferences are present and anything was scored.  An
exception raised during safety checking surfaces as none. -/
def filter_products_by_skin_analysis_api (analysisData : List AnalysisItem)
    (products : List CatalogProduct) (threshold : ℚ) (maxPer : ℕ)
    (prefs : Option UserPreferences) : Option (List (Str × List ProductInfo)) :=
  match processConditions products prefs maxPer [] [] [] (qualifyingConditions analysisData threshold) with
  | none => none
  | some (allScored, results) =>
    some (if prefs.isSome ∧ allScored ≠ [] then
            dictInsert results (sOf "top_score") ((sortByScoreDesc allScored).take 2)
          else results)

/-- filter_products_ids_only models the ids_only return format: the same
computation projected to ids, with the top_score entry removed. -/
def filter_products_ids_only (analysisData : List AnalysisItem)
    (products : List CatalogProduct) (threshold : ℚ) (maxPer : ℕ)
    (prefs : Option UserPreferences) : Option (List (Str × List ℕ)) :=
  (filter_products_by_skin_analysis_api analysisData products threshold maxPer prefs).map
    (fun results =>
      (results.filter (fun kv => kv.1 ≠ sOf "top_score")).map
        (fun kv => (kv.1, kv.2.map (fun info => info.id))))

/-! ## Allergen filter component (filtering_products/allergen_filtering.py) -/

/-- get_user_allergens models AllergenFilter.get_user_allergens: the fetched
preferences (none models a failed fetch) are reduced to the canonical names
of the declared allergen ids; an id absent from the enumeration is logged and
skipped, and never fails the request. -/
def get_user_allergens (preferences : Option UserPreferences) : List Str × UserPreferences :=
  match preferences with
  | none => ([], emptyPrefs)
  | some prefs =>
    (prefs.allergenicIngredients.filterMap (fun i => lookupId AllergenicIngredients i), prefs)

/-- generate_search_terms_map models AllergenFilter.generate_search_terms:
the dict from allergen name to detector search terms. -/
def generate_search_terms_map (allergen_names : List Str) : List (Str × List Str) :=
  allergen_names.foldl (fun acc n => dictInsert acc n (generate_search_terms n)) []

/-- joinSep interleaves a separator between list elements, modelling
Python str.join. -/
def joinSep (sep : Str) : List Str → Str
  | [] => []
  | [x] => x
  | x :: t => x ++ sep ++ joinSep sep t

/-- generate_allergen_filter_sql models
AllergenFilter.generate_allergen_filter_sql: an ILIKE condition per search
term, OR-combined, negated when exclude_unsafe, with pattern parameters. -/
def generate_allergen_filter_sql (allergen_search_terms : List (Str × List Str))
    ( exclude_unsafe : Bool) : Str × List Str :=
  if allergen_search_terms = [] then ([], [])
  else
    let all_search_terms := allergen_search_terms.foldl (fun acc kv => acc ++ kv.2) []
    if all_search_terms = [] then ([], [])
    else
      let ilike_conditions := all_search_terms.map (fun _ => sOf "ingredients_text ILIKE %s")
      let parameters := all_search_terms.map (fun t => '%' :: (t ++ [ '%' ]))
      let combined := sOf "(" ++ joinSep (sOf " OR ") ilike_conditions ++ sOf ")"
      (if exclude_unsafe then sOf "NOT " ++ combined else combined, parameters)

/-! ## Analysis module (analysis_recommendation/analysis.py) -/

/-- normalize_confidence models the confidence normalization inline in
ProductAnalysisModule._get_filtered_analysis: divide by 100 exactly when the
raw value exceeds 1, otherwise keep it unchanged. -/
def normalize_confidence (c : ℚ) : ℚ := if 1 < c then c / 100 else c

/-- FilteredAnalysisItem is an analysis entry kept by the threshold filter,
with the attached normalized_confidence field. -/
structure FilteredAnalysisItem where
  analysisType : Str
  confidence : ℚ
  normalizedConfidence : ℚ
deriving DecidableEq

/-- get_filtered_analysis models ProductAnalysisModule._get_filtered_analysis.
The analysis API response is a parameter (the utility.get_analysis collaborator
is specified only at its interface); none models a failed or unsuccessful
fetch, which yields the empty list.  Entries are kept exactly when the
normalized confidence reaches the threshold. -/
def get_filtered_analysis (resp : Option (List AnalysisItem)) (threshold : ℚ) :
    List FilteredAnalysisItem :=
  match resp with
  | none => []
  | some raw =>
    raw.filterMap (fun item =>
      let nc := normalize_confidence item.confidence
      if threshold ≤ nc then some ⟨item.analysisType, item.confidence, nc⟩ else none)

/-- map_analysis_to_concerns models
ProductAnalysisModule._map_analysis_to_concerns: the lowercased analysis type
keys an additive accumulation of normalized confidences. -/
def map_analysis_to_concerns (rows : List FilteredAnalysisItem) : List (Str × ℚ) :=
  rows.foldl (fun acc item => dictAdd acc (lowerStr item.analysisType) item.normalizedConfidence) []

/-- normalize_name models the normalization in _get_concern_embeddings:
lowercase and remove spaces, hyphens and underscores. -/
def normalize_name (s : Str) : Str :=
  (lowerStr s).filter (fun c => ¬(c = ' ' ∨ c = '-' ∨ c = '_'))

/-- concept_special_mappings transcribes the mappings table of
ProductAnalysisModule._is_concept_match. -/
def concept_special_mappings : List (Str × Str) :=
  [(sOf "darkcircles", sOf "darkcircles"),
   (sOf "puffiness", sOf "eyebag"),
   (sOf "finelines", sOf "wrinkles"),
   (sOf "finelineswrinkles", sOf "wrinkles"),
   (sOf "acneblemishes", sOf "acne"),
   (sOf "blemishes", sOf "acne")]

/-- is_concept_match models ProductAnalysisModule._is_concept_match:
the curated table maps the normalized concern to exactly this concept. -/
def is_concept_match (concern concept : Str) : Bool :=
  dictGet concept_special_mappings concern = some concept

/-- matches_any_strategy is the disjunction of the three matching strategies
applied to one concept, in source order: normalized exact match, containment
either way, curated special mapping. -/
def matches_any_strategy (concern : Str) (c : Str × List ℚ) : Bool :=
  let nc := normalize_name concern
  let np := normalize_name c.1
  nc = np || (containsSub np nc || containsSub nc np) || is_concept_match nc np

/-- resolve_concern models the inner concept loop of
ProductAnalysisModule._get_concern_embeddings: concepts are scanned in the
order the store returned them (ORDER BY name); for each concept the three
strategies are tried in order and the loop breaks at the first concept that
matches by any strategy.  Embeddings are modelled as already parsed vectors
(the query restricts to non-null embeddings and the pgvector text format is
fixed). -/
def resolve_concern (concern : Str) : List (Str × List ℚ) → Option (Str × List ℚ)
  | [] => none
  | c :: rest =>
    if normalize_name concern = normalize_name c.1 then some c
    else if containsSub (normalize_name c.1) (normalize_name concern) ∨
        containsSub (normalize_name concern) (normalize_name c.1) then some c
    else if is_concept_match (normalize_name concern) (normalize_name c.1) then some c
    else resolve_concern concern rest

/-- get_concern_embeddings models
ProductAnalysisModule._get_concern_embeddings: a failing concepts query is
caught and yields the empty dict; otherwise each concern resolves through
resolve_concern and matched embeddings are collected per concern. -/
def get_concern_embeddings (concern_names : List Str)
    (conceptsQuery : Except Unit (List (Str × List ℚ))) : List (Str × List ℚ) :=
  match conceptsQuery with
  | Except.error _ => []
  | Except.ok available =>
    concern_names.foldl (fun acc concern =>
      match resolve_concern concern available with
      | some c => dictInsert acc concern c.2
      | none => acc) []

/-- concern_formula_params documents the per-concern (weight, embedding)
pairs of the scoring formula built in _calculate_product_scores, where a
missing weight defaults to 0. -/
def concern_formula_params (concern_embeddings : List (Str × List ℚ))
    (concern_scores : List (Str × ℚ)) : List (ℚ × List ℚ) :=
  concern_embeddings.map (fun ce => ((dictGet concern_scores ce.1).getD 0, ce.2))

/-- ScoreRow models one row returned by the single scoring query of
_calculate_product_scores; price and final_score are nullable. -/
structure ScoreRow where
  id : ℕ
  name : Str
  keyBenefits : Str
  description : Str
  price : Option ℚ
  stockStatus : ℕ
  finalScore : Option ℚ
deriving DecidableEq

/-- ScoredProduct models the product dict assembled from a ScoreRow. -/
structure ScoredProduct where
  id : ℕ
  name : Str
  keyBenefits : Str
  description : Str
  price : ℚ
  stockStatus : ℕ
  inStock : Bool
  totalScore : ℚ
deriving DecidableEq

/-- calculate_product_scores models
ProductAnalysisModule._calculate_product_scores: the empty-embedding case
returns [] before any query; the query execution is a parameter, and a query
exception is caught and surfaced as the empty list. -/
def calculate_product_scores (concern_embeddings : List (Str × List ℚ))
    (store : Except Unit (List ScoreRow)) : List ScoredProduct :=
  if concern_embeddings = [] then []
  else
    match store with
    | Except.error _ => []
    | Except.ok rows =>
      rows.map (fun r =>
        ⟨r.id, r.name, r.keyBenefits, r.description, r.price.getD 0, r.stockStatus,
         r.stockStatus = 0, r.finalScore.getD 0⟩)

/-! ## Preference pipeline (analysis_recommendation/analysis_preference.py) -/

/-- dot_product models np.dot on the two vectors (which share the pgvector
dimension in the store; the model truncates to the shorter list). -/
def dot_product : List ℚ → List ℚ → ℚ
  | [], _ => 0
  | _, [] => 0
  | x :: xs, y :: ys => x * y + dot_product xs ys

/-- sum_sq is the sum of squares of a vector, the square of its norm. -/
def sum_sq : List ℚ → ℚ
  | [] => 0
  | x :: t => x * x + sum_sq t

/-- cosine_sim models _cosine_sim.  The floating-point norm np.linalg.norm is
not rational, so the norm computation is passed as a function parameter norm;
theorems characterize it by 0 ≤ norm v and (norm v) ^ 2 = sum_sq v.  A missing
vector on either side returns 0.0, a zero denominator returns 0.0, and
otherwise the cosine is rescaled to 0.5 + 0.5 * cos. -/
def cosine_sim (norm : List ℚ → ℚ) : Option (List ℚ) → Option (List ℚ) → ℚ
  | none, _ => 0
  | _, none => 0
  | some a, some b =>
    if norm a * norm b = 0 then 0
    else 1/2 + 1/2 * (dot_product a b / (norm a * norm b))

/-- tokenize_doc models _tokenize_doc: camel-case boundaries become spaces,
non-alphanumerics become spaces, the text is lowercased and split, and the
result is a set (modelled as a deduplicated list; all uses are
order-insensitive). -/
def tokenize_doc (doc : Str) : List Str :=
  let camel := camelSpace doc
  let cleaned := camel.map (fun c => if isAlnumAscii c then c else ' ')
  (splitWords (lowerStr cleaned)).dedup

/-- vec_add is componentwise vector addition (np.vstack rows share length). -/
def vec_add (a b : List ℚ) : List ℚ := List.zipWith (fun x y => x + y) a b

/-- vec_mean models np.vstack(vecs).mean(axis=0). -/
def vec_mean : List (List ℚ) → Option (List ℚ)
  | [] => none
  | v :: vs => some ((vs.foldl vec_add v).map (fun x => x / ((vs.length : ℚ) + 1)))

/-- build_pref_vector models _build_pref_vector.  The profile document is a
parameter (the DocumentGenerator collaborator is specified only at its
interface, per the spec); the concepts query may fail (queryOk false or a
failing concepts store), which is caught and yields no vector; tokens that
match no concept name yield no vector; otherwise the centroid of the matched
concept embeddings is returned. -/
def build_pref_vector (profileDoc : Str)
    (conceptsQuery : Except Unit (List (Str × List ℚ))) (queryOk : Bool) :
    Option (List ℚ) :=
  let tokens := tokenize_doc profileDoc
  if tokens = [] then none
  else
    let rows :=
      match conceptsQuery with
      | Except.error _ => []
      | Except.ok cs =>
        if queryOk then (cs.filter (fun c => lowerStr c.1 ∈ tokens)).map (fun c => c.2)
        else []
    if rows = [] then none else vec_mean rows

/-- fold_concern_ids is the skin-concern loop of _map_pref_concerns: each id
that resolves through BeautyPreferencesSkinConcern adds weight 1.0 under the
lowercased canonical name; unresolvable ids (including the 0 sentinel) add
nothing. -/
def fold_concern_ids (cs : List ℕ) (acc : List (Str × ℚ)) : List (Str × ℚ) :=
  cs.foldl (fun acc cid =>
    match lookupId BeautyPreferencesSkinConcern cid with
    | some cname => dictAdd acc (lowerStr cname) 1
    | none => acc) acc

/-- map_pref_concerns models _map_pref_concerns: declared skin concerns then
the skin type as a pseudo-concern, each adding weight 1.0 when the id
resolves (the 0 sentinel resolves to nothing and is skipped). -/
def map_pref_concerns (prefs : UserPreferences) : List (Str × ℚ) :=
  let t1 := fold_concern_ids prefs.skinConcerns []
  match lookupId BeautyPreferencesSkinType prefs.skinType with
  | some sname => dictAdd t1 (lowerStr sname) 1
  | none => t1

/-- merge_concern_scores models the merge loop in run_recommender:
analysis-derived scores accumulate the preference-derived weights. -/
def merge_concern_scores (base add : List (Str × ℚ)) : List (Str × ℚ) :=
  add.foldl (fun acc kv => dictAdd acc kv.1 kv.2) base

/-- CandidateRow models one row of the candidate query in
_fetch_candidate_products; the embedding field holds the parse result of the
embedding string (none models an unparseable value, which _pgvector_to_np
turns into p_vec None in the blending loop). -/
structure CandidateRow where
  id : ℕ
  name : Str
  keyBenefits : Str
  description : Str
  price : Option ℚ
  stockStatus : ℕ
  embedding : Option (List ℚ)
  concernScore : Option ℚ
deriving DecidableEq

/-- RawCandidate models the dict _fetch_candidate_products builds per row. -/
structure RawCandidate where
  id : ℕ
  name : Str
  keyBenefits : Str
  description : Str
  price : ℚ
  stockStatus : ℕ
  embedding : Option (List ℚ)
  concernScore : ℚ
deriving DecidableEq

/-- concern_formula_params_pref documents the (weight, embedding) pairs of
the query formula in _fetch_candidate_products, where the weight lookup
lowercases the concern name and defaults to 1.0 (unlike the 0 default in
_calculate_product_scores). -/
def concern_formula_params_pref (concern_embeddings : List (Str × List ℚ))
    (concern_scores : List (Str × ℚ)) : List (ℚ × List ℚ) :=
  concern_embeddings.map (fun ce => ((dictGet concern_scores (lowerStr ce.1)).getD 1, ce.2))

/-- fetch_candidate_products models _fetch_candidate_products: the
empty-embedding case returns [] before any query, but the query execution has
no try/except in the source, so a store failure propagates to the caller
(modelled as Except.error). -/
def fetch_candidate_products (concern_embeddings : List (Str × List ℚ))
    (store : Except Unit (List CandidateRow)) : Except Unit (List RawCandidate) :=
  if concern_embeddings = [] then Except.ok []
  else
    match store with
    | Except.error e => Except.error e
    | Except.ok rows =>
      Except.ok (rows.map (fun r =>
        ⟨r.id, r.name, r.keyBenefits, r.description, r.price.getD 0, r.stockStatus,
         r.embedding, r.concernScore.getD 0⟩))

/-- ScoredCandidate models the candidate dict after the blending loop in
run_recommender added pref_score, final_score and in_stock. -/
structure ScoredCandidate where
  id : ℕ
  name : Str
  description : Str
  price : ℚ
  stockStatus : ℕ
  concernScore : ℚ
  prefScore : ℚ
  finalScore : ℚ
  inStock : Bool
deriving DecidableEq

/-- blend_candidate models one iteration of the blending loop in
run_recommender: pref_sim is the rescaled cosine when a profile vector
exists (0.0 when the product vector is missing, by _cosine_sim), the neutral
0.5 otherwise, and final_score = alpha * concern_score + beta * pref_sim. -/
def blend_candidate (norm : List ℚ → ℚ) (alpha beta : ℚ) (prefVec : Option (List ℚ))
    (p : RawCandidate) : ScoredCandidate :=
  let prefSim :=
    match prefVec with
    | some a => cosine_sim norm (some a) p.embedding
    | none => 1/2
  let finalScore := alpha * p.concernScore + beta * prefSim
  ⟨p.id, p.name, p.description, p.price, p.stockStatus, p.concernScore, prefSim, finalScore,
   p.stockStatus = 0⟩

/-- np_isclose models np.isclose with its default tolerances
rtol = 1e-05 and atol = 1e-08. -/
def np_isclose (a b : ℚ) : Bool := |a - b| ≤ 1/100000000 + (1/100000) * |b|

/-- StoreAccess labels the external reads run_recommender can perform, in
the order the source performs them. -/
inductive StoreAccess where
  | usersTable
  | analysisApi
  | preferenceApi
  | conceptsTable
  | productsTable
deriving DecidableEq

/-- Env bundles the external collaborators of run_recommender: the users
embedding-presence row, the analysis and preference API responses, the
concepts table, the generated profile document (DocumentGenerator interface),
a success flag for the profile-vector concepts query, the candidate query
result, and the floating-point norm computation as an oracle function. -/
structure Env where
  usersEmbeddingQuery : Except Unit (Option Bool)
  analysisResp : Option (List AnalysisItem)
  prefResp : Option UserPreferences
  conceptsQuery : Except Unit (List (Str × List ℚ))
  profileDoc : Str
  prefVecQueryOk : Bool
  productsQuery : Except Unit (List CandidateRow)
  normOf : List ℚ → ℚ

/-- RecResult models the result dict of run_recommender: the final product
list and the parameters echoed back (alpha and the effective beta), plus the
summary fields the claims mention. -/
structure RecResult where
  products : List ScoredCandidate
  alphaUsed : ℚ
  betaUsed : ℚ
  mappedConcerns : List (Str × ℚ)
  totalAnalysisItems : ℕ
deriving DecidableEq

/-- product_type_keep models the post-filter in run_recommender: the
candidate dicts carry no category key, so the category test compares the
empty default against the requested type; otherwise the type must occur in
the lowercased name or description. -/
def product_type_keep (ptLower : Str) (p : ScoredCandidate) : Bool :=
  (([] : Str) = ptLower) || containsSub (lowerStr p.name) ptLower ||
    containsSub (lowerStr p.description) ptLower

/-- run_recommender models run_recommender in
analysis_recommendation/analysis_preference.py, paired with the ordered list
of external reads it performed.  The source sequence is: instantiate the
analyzer, query the users table for the embedding-presence warning, default
beta to 1 - alpha, validate with np.isclose (raising ValueError otherwise),
then fetch and merge analysis and preference concerns, resolve concern
embeddings, build allergen SQL from a second preference fetch, build the
profile vector, fetch candidates (a store failure here propagates), blend,
sort descending by final score, truncate to top_n and post-filter by product
type. -/
def run_recommender (env : Env) (confidence_threshold : ℚ) (top_n : ℕ)
    (max_price : Option ℚ) (include_out_of_stock : Bool) (alpha : ℚ)
    (betaOpt : Option ℚ) (product_type : Option Str) :
    List StoreAccess × Except Str RecResult :=
  let trace1 := [StoreAccess.usersTable]
  let beta := betaOpt.getD (1 - alpha)
  if ¬ np_isclose (alpha + beta) 1 then
    (trace1, Except.error (sOf "alpha + beta must equal 1.0"))
  else
    let analysis_rows := get_filtered_analysis env.analysisResp confidence_threshold
    let trace2 := trace1 ++ [StoreAccess.analysisApi]
    let concern_scores1 := map_analysis_to_concerns analysis_rows
    let prefs := env.prefResp.getD emptyPrefs
    let trace3 := trace2 ++ [StoreAccess.preferenceApi]
    let pref_concerns := map_pref_concerns prefs
    let concern_scores := merge_concern_scores concern_scores1 pref_concerns
    let concern_embeddings :=
      get_concern_embeddings (concern_scores.map (fun kv => kv.1)) env.conceptsQuery
    let trace4 := trace3 ++ [StoreAccess.conceptsTable]
    let allergen_names := (get_user_allergens env.prefResp).1
    let trace5 := trace4 ++ [StoreAccess.preferenceApi]
    let allergenSql :=
      if allergen_names = [] then (([] : Str), ([] : List Str))
      else generate_allergen_filter_sql (generate_search_terms_map allergen_names) true
    let pref_vec := build_pref_vector env.profileDoc env.conceptsQuery env.prefVecQueryOk
    let trace6 :=
      if tokenize_doc env.profileDoc ≠ [] then trace5 ++ [StoreAccess.conceptsTable] else trace5
    let fetched := fetch_candidate_products concern_embeddings env.productsQuery
    let trace7 :=
      if concern_embeddings ≠ [] then trace6 ++ [StoreAccess.productsTable] else trace6
    match fetched with
    | Except.error _ => (trace7, Except.error (sOf "database error"))
    | Except.ok raw_products =>
      let blended := raw_products.map (blend_candidate env.normOf alpha beta pref_vec)
      let sorted := List.insertionSort (fun a b => b.finalScore ≤ a.finalScore) blended
      let trimmed := sorted.take top_n
      let final :=
        match product_type with
        | none => trimmed
        | some pt => trimmed.filter (product_type_keep (lowerStr pt))
      (trace7, Except.ok ⟨final, alpha, beta, concern_scores, analysis_rows.length⟩)

/-! ## Helper lemmas -/

/-- normalize_confidence maps the declared confidence scales into the unit
interval. -/
lemma normalize_confidence_mem_unit (c : ℚ) (h0 : 0 ≤ c) (h100 : c ≤ 100) :
    0 ≤ normalize_confidence c ∧ normalize_confidence c ≤ 1 := by
  unfold normalize_confidence
  by_cases h1 : 1 < c
  · rw [if_pos h1]
    constructor
    · positivity
    · rw [div_le_one (by norm_num : (0:ℚ) < 100)]; exact h100
  · rw [if_neg h1]
    exact ⟨h0, not_lt.mp h1⟩

/-- a kept filtered-analysis item is exactly a raw item whose normalized
confidence reaches the threshold. -/
lemma mem_get_filtered_analysis (raw : List AnalysisItem) (threshold : ℚ)
    (item : FilteredAnalysisItem) :
    item ∈ get_filtered_analysis (some raw) threshold ↔
      ∃ a ∈ raw, threshold ≤ normalize_confidence a.confidence ∧
        item = ⟨a.analysisType, a.confidence, normalize_confidence a.confidence⟩ := by
  unfold get_filtered_analysis
  rw [List.mem_filterMap]
  constructor
  · rintro ⟨a, ha, hfa⟩
    by_cases hth : threshold ≤ normalize_confidence a.confidence
    · rw [if_pos hth] at hfa
      exact ⟨a, ha, hth, (Option.some_inj.mp hfa).symm⟩
    · rw [if_neg hth] at hfa
      exact absurd hfa (by simp)
  · rintro ⟨a, ha, hth, hitem⟩
    exact ⟨a, ha, by rw [if_pos hth, hitem]⟩

/-! ## Claim C5 -/

/-- C5: for every analysis detection, the aggregator
(ProductAnalysisModule._get_filtered_analysis) divides the confidence by 100
exactly when the raw value exceeds 1, keeps the detection exactly when the
normalized confidence is at or above the caller-supplied threshold, and —
for confidences on the declared 0-1 or 0-100 arrival scales — every kept
detection has normalized confidence in the unit interval. -/
theorem claim_C5_confidence_normalization (raw : List AnalysisItem) (threshold : ℚ) :
    (∀ c : ℚ, (1 < c → normalize_confidence c = c / 100) ∧
      (c ≤ 1 → normalize_confidence c = c)) ∧
    (∀ item : FilteredAnalysisItem, item ∈ get_filtered_analysis (some raw) threshold ↔
      ∃ a ∈ raw, threshold ≤ normalize_confidence a.confidence ∧
        item = ⟨a.analysisType, a.confidence, normalize_confidence a.confidence⟩) ∧
    ((∀ a ∈ raw, 0 ≤ a.confidence ∧ a.confidence ≤ 100) →
      ∀ item ∈ get_filtered_analysis (some raw) threshold,
        0 ≤ item.normalizedConfidence ∧ item.normalizedConfidence ≤ 1) := by
  refine ⟨fun c => ⟨fun h => if_pos h, fun h => if_neg (not_lt.mpr h)⟩,
    mem_get_filtered_analysis raw threshold, fun hbounds item hitem => ?_⟩
  obtain ⟨a, ha, _, hitem⟩ := (mem_get_filtered_analysis raw threshold item).mp hitem
  obtain ⟨h0, h100⟩ := hbounds a ha
  rw [hitem]
  exact normalize_confidence_mem_unit a.confidence h0 h100

/-- Witness for C5 at a concrete detection list. -/
theorem claim_C5_witness :
    (∀ a ∈ [AnalysisItem.mk (sOf "acne") 80], 0 ≤ a.confidence ∧ a.confidence ≤ 100) ∧
    (∀ item ∈ get_filtered_analysis (some [AnalysisItem.mk (sOf "acne") 80]) (1/2),
      0 ≤ item.normalizedConfidence ∧ item.normalizedConfidence ≤ 1) ∧
    ((1:ℚ) < 80 → normalize_confidence 80 = 80 / 100) := by
  have hb : ∀ a ∈ [AnalysisItem.mk (sOf "acne") 80],
      0 ≤ AnalysisItem.confidence a ∧ a.confidence ≤ 100 := by
    intro a ha
    rw [List.mem_singleton] at ha
    rw [ha]
    norm_num
  exact ⟨hb, (claim_C5_confidence_normalization [AnalysisItem.mk (sOf "acne") 80] (1/2)).2.2 hb,
    ((claim_C5_confidence_normalization [AnalysisItem.mk (sOf "acne") 80] (1/2)).1 80).1⟩

/-! ## Claim C6 -/

/-- C6: normalization of a confidence value (which arrives on the 0-1 or
0-100 scale, hence is at most 100) is idempotent, and a value already in the
unit interval is a fixed point of normalization. -/
theorem claim_C6_normalize_idempotent (c : ℚ) (h100 : c ≤ 100) :
    normalize_confidence (normalize_confidence c) = normalize_confidence c ∧
    (0 ≤ c → c ≤ 1 → normalize_confidence c = c) := by
  constructor
  · by_cases h1 : 1 < c
    · have hval : normalize_confidence c = c / 100 := if_pos h1
      have hle : c / 100 ≤ 1 := by
        rw [div_le_one (by norm_num : (0:ℚ) < 100)]; exact h100
      rw [hval]
      exact if_neg (not_lt.mpr hle)
    · have hval : normalize_confidence c = c := if_neg h1
      rw [hval]
      exact hval
  · intro _ h1
    exact if_neg (not_lt.mpr h1)

/-- Witness for C6 at the concrete confidence 80. -/
theorem claim_C6_witness :
    ((80:ℚ) ≤ 100) ∧
    normalize_confidence (normalize_confidence 80) = normalize_confidence 80 :=
  ⟨by norm_num, (claim_C6_normalize_idempotent 80 (by norm_num)).1⟩

/-! ## Claim C2 -/

/-- C2 counterexample: the concern puffiness exactly matches the concept
named Puffiness after normalization, and also appears in the curated
special-case table under the different concept eyebag; with the catalog in
store order (ORDER BY name puts Eyebag before Puffiness) the resolver picks
the special-mapped concept Eyebag and returns its embedding, not the
exact-match embedding — refuting the claimed strict strategy precedence. -/
theorem claim_C2_counterexample :
    resolve_concern (sOf "puffiness") [(sOf "Eyebag", [1]), (sOf "Puffiness", [2])] =
      some (sOf "Eyebag", [1]) ∧
    normalize_name (sOf "puffiness") = normalize_name (sOf "Puffiness") ∧
    is_concept_match (normalize_name (sOf "puffiness")) (normalize_name (sOf "Eyebag")) = true ∧
    ([1] : List ℚ) ≠ [2] := by
  refine ⟨by with_unfolding_all rfl, by decide, by decide, ?_⟩
  intro h
  have := List.head_eq_of_cons_eq h
  norm_num at this

/-- one unfolding step of resolve_concern, phrased through the combined
strategy test. -/
lemma resolve_concern_cons (concern : Str) (c : Str × List ℚ) (rest : List (Str × List ℚ)) :
    resolve_concern concern (c :: rest) =
      if matches_any_strategy concern c = true then some c else resolve_concern concern rest := by
  rw [resolve_concern]
  by_cases hm : matches_any_strategy concern c = true
  · rw [if_pos hm]
    unfold matches_any_strategy at hm
    simp only [Bool.or_eq_true, decide_eq_true_eq] at hm
    by_cases h1 : normalize_name concern = normalize_name c.1
    · rw [if_pos h1]
    · rw [if_neg h1]
      by_cases h2 : containsSub (normalize_name c.1) (normalize_name concern) = true ∨
          containsSub (normalize_name concern) (normalize_name c.1) = true
      · rw [if_pos h2]
      · rw [if_neg h2]
        rcases hm with (hm1 | hm2) | hm3
        · exact absurd hm1 h1
        · exact absurd hm2 h2
        · rw [if_pos hm3]
  · rw [if_neg hm]
    unfold matches_any_strategy at hm
    simp only [Bool.or_eq_true, decide_eq_true_eq, not_or] at hm
    obtain ⟨⟨h1, h2a, h2b⟩, h3⟩ := hm
    rw [if_neg h1, if_neg (not_or.mpr ⟨h2a, h2b⟩), if_neg h3]

/-- C2 amended: resolution scans the concept catalog in store order and stops
at the first concept matching any of the three strategies (tried per concept
in the order exact, containment, special table); the exact-match concept wins
only when it is the first matching concept in catalog order. -/
theorem claim_C2_amended (concern : Str) (concepts : List (Str × List ℚ)) :
    resolve_concern concern concepts = concepts.find? (matches_any_strategy concern) := by
  induction concepts with
  | nil => rfl
  | cons c rest ih =>
    rw [resolve_concern_cons]
    by_cases hm : matches_any_strategy concern c = true
    · rw [if_pos hm, List.find?_cons_of_pos _ hm]
    · rw [if_neg hm, ih, List.find?_cons_of_neg _ hm]

/-! ## Claim C3 -/

/-- C3 counterexample: with a nonempty concern-embedding table and a failing
candidate store, _fetch_candidate_products propagates the failure to its
caller instead of returning the empty list — the claimed
catch-and-return-empty behavior holds only in _calculate_product_scores. -/
theorem claim_C3_counterexample :
    fetch_candidate_products [(sOf "acne", [1])] (Except.error ()) = Except.error () ∧
    Except.error () ≠ Except.ok ([] : List RawCandidate) := by
  constructor
  · rw [fetch_candidate_products, if_neg (by simp)]
  · simp

/-- C3 amended: a candidate-store failure during scoring is caught and
surfaced as the empty list in ProductAnalysisModule._calculate_product_scores,
but _fetch_candidate_products has no exception handler and propagates the
store failure to run_recommender. -/
theorem claim_C3_amended (ce : List (Str × List ℚ)) :
    calculate_product_scores ce (Except.error ()) = [] ∧
    (ce ≠ [] → fetch_candidate_products ce (Except.error ()) = Except.error ()) := by
  constructor
  · by_cases h : ce = [] <;> simp [calculate_product_scores, h]
  · intro h
    rw [fetch_candidate_products, if_neg h]

/-- Witness for C3 amended at a concrete nonempty concern table. -/
theorem claim_C3_witness :
    calculate_product_scores [(sOf "acne", [1])] (Except.error ()) = [] ∧
    fetch_candidate_products [(sOf "acne", [1])] (Except.error ()) = Except.error () :=
  ⟨(claim_C3_amended [(sOf "acne", [1])]).1,
   (claim_C3_amended [(sOf "acne", [1])]).2 (by simp)⟩

/-! ## Claim C9 -/

/-- demoPrefsMixedAllergens declares the unknown allergen id 999 together
with the known id 107 (Methylparaben). -/
def demoPrefsMixedAllergens : UserPreferences := ⟨0, [], [999, 107], 0, 0, [], [], [], 0, 0, 0⟩

/-- demoPrefsUnknownAllergen declares only the unknown allergen id 999. -/
def demoPrefsUnknownAllergen : UserPreferences := ⟨0, [], [999], 0, 0, [], [], [], 0, 0, 0⟩

/-- demoPlainProduct is a harmless product used as the failing input. -/
def demoPlainProduct : CatalogProduct :=
  ⟨1, sOf "Cream", sOf "", sOf "", sOf "water", sOf "", [], []⟩

/-- C9: in the SQL-filter path, AllergenFilter.get_user_allergens skips the
unknown id 999 and still resolves 107 to Methylparaben; but in the
rule-scorer safety check, _is_product_safe_for_user keeps the None produced
by AllergenicIngredients.get(999) and hands it to
AllergenDetector.generate_search_terms, where None.lower() raises
AttributeError — modelled as the result none — so an unknown id crashes that
path instead of being skipped. -/
theorem claim_C9_unknown_allergen_id :
    get_user_allergens (some demoPrefsMixedAllergens) =
      ([sOf "Methylparaben"], demoPrefsMixedAllergens) ∧
    is_product_safe_for_user demoPlainProduct demoPrefsUnknownAllergen = none ∧
    is_product_safe_for_user demoPlainProduct demoPrefsMixedAllergens = none := by
  refine ⟨by decide, by decide, by decide⟩

/-! ## Claim C7 -/

/-- prefs_with builds a preference record declaring only skin concerns and a
skin type, every other field unset. -/
def prefs_with (cs : List ℕ) (st : ℕ) : UserPreferences := ⟨st, cs, [], 0, 0, [], [], [], 0, 0, 0⟩

/-- the id 0 resolves to no skin-type name. -/
lemma lookup_skin_type_zero : lookupId BeautyPreferencesSkinType 0 = none := by decide

/-- the id 0 resolves to no concern name. -/
lemma lookup_concern_zero : lookupId BeautyPreferencesSkinConcern 0 = none := by decide

/-- C7: the sentinel 0 never scores — an all-sentinel preference record
(skinType 0, skinConcerns [0]) yields the empty concern-weight table and a
zero CRITICAL sub-score; a 0 concern id adds no key during aggregation; a
zero skinType adds no pseudo-concern key; with skinType 0 plus real declared
concerns the CRITICAL sub-score equals the concern overlap term alone — the
denominator excludes the skin-type dimension instead of counting it as a
zero-scoring item; and symmetrically, with a declared skinType plus the
skinConcerns [0] sentinel the CRITICAL sub-score equals the skin-type term
divided by one — the [0] dimension is excluded from the denominator rather
than counted as a zero-scoring item (which would halve the score). -/
theorem claim_C7_zero_sentinel :
    (∀ u : UserPreferences, u.skinType = 0 → u.skinConcerns = [0] →
      map_pref_concerns u = [] ∧ ∀ p : CatalogProduct, score_critical_preferences p u = 0) ∧
    (∀ (cs : List ℕ) (acc : List (Str × ℚ)), fold_concern_ids (0 :: cs) acc = fold_concern_ids cs acc) ∧
    (∀ u : UserPreferences, u.skinType = 0 → map_pref_concerns u = fold_concern_ids u.skinConcerns []) ∧
    (∀ (u : UserPreferences) (p : CatalogProduct), u.skinType = 0 → u.skinConcerns ≠ [] →
      u.skinConcerns ≠ [0] →
      score_critical_preferences p u = concern_overlap_score p u.skinConcerns) ∧
    (∀ (u : UserPreferences) (p : CatalogProduct), u.skinType ≠ 0 → u.skinConcerns = [0] →
      score_critical_preferences p u = skin_type_score p u.skinType) := by
  refine ⟨fun u hst hsc => ⟨?_, fun p => ?_⟩, fun cs acc => ?_, fun u hst => ?_,
    fun u p hst hne hne0 => ?_, fun u p hst0 hsc0 => ?_⟩
  · rw [map_pref_concerns, hst, lookup_skin_type_zero, hsc]
    rw [show fold_concern_ids [0] [] = fold_concern_ids [] [] from by
      rw [fold_concern_ids, fold_concern_ids, List.foldl_cons, List.foldl_nil, List.foldl_nil,
        lookup_concern_zero]]
    rfl
  · rw [score_critical_preferences, hst, hsc]
    norm_num
  · rw [fold_concern_ids, fold_concern_ids, List.foldl_cons, lookup_concern_zero]
  · rw [map_pref_concerns, hst, lookup_skin_type_zero]
  · simp only [score_critical_preferences, hst, ne_eq, not_true_eq_false, if_false,
      reduceIte, hne, hne0, not_false_eq_true, and_self, if_true]
    norm_num
  · simp only [score_critical_preferences, hsc0, ne_eq, hst0, not_false_eq_true, if_true,
      not_true_eq_false, and_false, if_false]
    norm_num

/-- demoSkinTypedProduct lists skin type 2, so a declared skin type 2
matches it fully. -/
def demoSkinTypedProduct : CatalogProduct :=
  ⟨3, sOf "Toner", sOf "", sOf "", sOf "", sOf "", [], [2]⟩

/-- Witness for C7 at concrete sentinel and non-sentinel records; the last
two conjuncts exercise the distinguishing case: skinType 2 declared with the
skinConcerns [0] sentinel scores the full 1, not the 1/2 that counting the
sentinel as a zero-scoring denominator item would produce. -/
theorem claim_C7_witness :
    map_pref_concerns (prefs_with [0] 0) = [] ∧
    score_critical_preferences demoPlainProduct (prefs_with [0] 0) = 0 ∧
    score_critical_preferences demoPlainProduct (prefs_with [5] 0) =
      concern_overlap_score demoPlainProduct [5] ∧
    score_critical_preferences demoSkinTypedProduct (prefs_with [0] 2) =
      skin_type_score demoSkinTypedProduct 2 ∧
    skin_type_score demoSkinTypedProduct 2 = 1 :=
  ⟨(claim_C7_zero_sentinel.1 (prefs_with [0] 0) rfl rfl).1,
   (claim_C7_zero_sentinel.1 (prefs_with [0] 0) rfl rfl).2 demoPlainProduct,
   claim_C7_zero_sentinel.2.2.2.1 (prefs_with [5] 0) demoPlainProduct rfl (by decide) (by decide),
   claim_C7_zero_sentinel.2.2.2.2 (prefs_with [0] 2) demoSkinTypedProduct (by decide) rfl,
   by with_unfolding_all rfl⟩

/-! ## Claim C8 -/

/-- sum_sq is nonnegative. -/
lemma sum_sq_nonneg (a : List ℚ) : 0 ≤ sum_sq a := by
  induction a with
  | nil => exact le_refl 0
  | cons x t ih => exact add_nonneg (mul_self_nonneg x) ih

/-- Cauchy-Schwarz for the list dot product. -/
lemma dot_sq_le_sum_sq (a : List ℚ) : ∀ b : List ℚ, dot_product a b ^ 2 ≤ sum_sq a * sum_sq b := by
  induction a with
  | nil =>
    intro b
    simp only [dot_product, sum_sq]
    norm_num
  | cons x xs ih =>
    intro b
    cases b with
    | nil =>
      simp only [dot_product, sum_sq]
      nlinarith [sum_sq_nonneg xs, mul_self_nonneg x]
    | cons y ys =>
      have ihd := ih ys
      have ha := sum_sq_nonneg xs
      have hb := sum_sq_nonneg ys
      show (x * y + dot_product xs ys) ^ 2 ≤ (x * x + sum_sq xs) * (y * y + sum_sq ys)
      rcases eq_or_lt_of_le ha with ha0 | hapos
      · have hsq : dot_product xs ys ^ 2 = 0 := by
          refine le_antisymm ?_ (sq_nonneg _)
          nlinarith [ihd]
        have hd0 : dot_product xs ys = 0 := by
          exact pow_eq_zero_iff (by norm_num) |>.mp hsq
        rw [hd0, ← ha0]
        nlinarith [mul_self_nonneg x, mul_self_nonneg y, hb, sq_nonneg (x * y)]
      · have key : 2 * (x * y) * dot_product xs ys * sum_sq xs ≤
            (x ^ 2 * sum_sq ys + y ^ 2 * sum_sq xs) * sum_sq xs := by
          nlinarith [sq_nonneg (x * dot_product xs ys - y * sum_sq xs), ihd, sq_nonneg x]
        have key2 : 2 * (x * y) * dot_product xs ys ≤ x ^ 2 * sum_sq ys + y ^ 2 * sum_sq xs :=
          le_of_mul_le_mul_right key hapos
        nlinarith [ihd, key2]

/-- cosine_sim on present vectors with a nonzero denominator equals the
rescaled cosine and lies in the unit interval, given that norm behaves as the
Euclidean norm on the two vectors. -/
lemma cosine_sim_eq_and_bounds (norm : List ℚ → ℚ) (a b : List ℚ)
    (hna : 0 ≤ norm a) (hsa : norm a ^ 2 = sum_sq a)
    (hnb : 0 ≤ norm b) (hsb : norm b ^ 2 = sum_sq b)
    (hdenom : norm a * norm b ≠ 0) :
    cosine_sim norm (some a) (some b) =
      1/2 + 1/2 * (dot_product a b / (norm a * norm b)) ∧
    0 ≤ cosine_sim norm (some a) (some b) ∧ cosine_sim norm (some a) (some b) ≤ 1 := by
  have hc : (0:ℚ) < norm a * norm b := lt_of_le_of_ne (mul_nonneg hna hnb) (Ne.symm hdenom)
  have hval : cosine_sim norm (some a) (some b) =
      1/2 + 1/2 * (dot_product a b / (norm a * norm b)) := by
    simp only [cosine_sim]
    rw [if_neg hdenom]
  have hd2 : dot_product a b ^ 2 ≤ (norm a * norm b) ^ 2 := by
    rw [mul_pow, hsa, hsb]
    exact dot_sq_le_sum_sq a b
  have hlow : -(norm a * norm b) ≤ dot_product a b := by
    nlinarith [sq_nonneg (dot_product a b + norm a * norm b)]
  have hhigh : dot_product a b ≤ norm a * norm b := by
    nlinarith [sq_nonneg (dot_product a b - norm a * norm b)]
  refine ⟨hval, ?_, ?_⟩
  · rw [hval]
    have hdc : (-1 : ℚ) ≤ dot_product a b / (norm a * norm b) := by
      rw [le_div_iff₀ hc]
      linarith
    linarith
  · rw [hval]
    have hdc : dot_product a b / (norm a * norm b) ≤ 1 := (div_le_one hc).mpr hhigh
    linarith

/-- the pref score of a blended candidate with a profile vector is the
cosine similarity against the product embedding. -/
lemma blend_candidate_prefScore_some (norm : List ℚ → ℚ) (alpha beta : ℚ) (a : List ℚ)
    (p : RawCandidate) :
    (blend_candidate norm alpha beta (some a) p).prefScore = cosine_sim norm (some a) p.embedding :=
  rfl

/-- the pref score of a blended candidate without a profile vector is 0.5. -/
lemma blend_candidate_prefScore_none (norm : List ℚ → ℚ) (alpha beta : ℚ) (p : RawCandidate) :
    (blend_candidate norm alpha beta none p).prefScore = 1/2 :=
  rfl

/-- the final score of a blended candidate is the linear blend of the
concern score and the pref score. -/
lemma blend_candidate_finalScore (norm : List ℚ → ℚ) (alpha beta : ℚ)
    (pv : Option (List ℚ)) (p : RawCandidate) :
    (blend_candidate norm alpha beta pv p).finalScore =
      alpha * p.concernScore + beta * (blend_candidate norm alpha beta pv p).prefScore :=
  rfl

/-- C8: for every candidate whose embedding parsed, the profile-similarity
term blended by run_recommender equals 0.5 + 0.5 * cos(profile, product) — a
value in the unit interval — where norm is characterized as the Euclidean
norm on the two vectors and the denominator is nonzero; when the profile
vector is undefined the term is the neutral 0.5; and in both cases
final_score = alpha * concern_score + beta * pref_score. -/
theorem claim_C8_profile_blend (norm : List ℚ → ℚ) (alpha beta : ℚ) (a b : List ℚ)
    (p : RawCandidate)
    (hna : 0 ≤ norm a) (hsa : norm a ^ 2 = sum_sq a)
    (hnb : 0 ≤ norm b) (hsb : norm b ^ 2 = sum_sq b)
    (hdenom : norm a * norm b ≠ 0) (hemb : p.embedding = some b) :
    ((blend_candidate norm alpha beta (some a) p).prefScore =
        1/2 + 1/2 * (dot_product a b / (norm a * norm b)) ∧
      0 ≤ (blend_candidate norm alpha beta (some a) p).prefScore ∧
      (blend_candidate norm alpha beta (some a) p).prefScore ≤ 1 ∧
      (blend_candidate norm alpha beta (some a) p).finalScore =
        alpha * p.concernScore + beta * (blend_candidate norm alpha beta (some a) p).prefScore) ∧
    (∀ q : RawCandidate, (blend_candidate norm alpha beta none q).prefScore = 1/2 ∧
      (blend_candidate norm alpha beta none q).finalScore =
        alpha * q.concernScore + beta * (1/2)) := by
  obtain ⟨hval, hlo, hhi⟩ := cosine_sim_eq_and_bounds norm a b hna hsa hnb hsb hdenom
  have hps : (blend_candidate norm alpha beta (some a) p).prefScore =
      cosine_sim norm (some a) (some b) := by
    rw [blend_candidate_prefScore_some, hemb]
  refine ⟨⟨by rw [hps, hval], by rw [hps]; exact hlo, by rw [hps]; exact hhi,
    blend_candidate_finalScore norm alpha beta (some a) p⟩, fun q => ⟨rfl, ?_⟩⟩
  rw [blend_candidate_finalScore, blend_candidate_prefScore_none]

/-- demoRawCandidate is a concrete candidate row with a parsed embedding. -/
def demoRawCandidate : RawCandidate := ⟨1, sOf "P", sOf "", sOf "", 10, 0, some [1], 3/4⟩

/-- Witness for C8 with the one-dimensional unit vector and the constant-one
norm function, which satisfies the norm characterization there. -/
theorem claim_C8_witness :
    0 ≤ (blend_candidate (fun _ => 1) (4/5) (1/5) (some [1]) demoRawCandidate).prefScore ∧
    (blend_candidate (fun _ => 1) (4/5) (1/5) (some [1]) demoRawCandidate).prefScore ≤ 1 ∧
    (blend_candidate (fun _ => 1) (4/5) (1/5) none demoRawCandidate).prefScore = 1/2 := by
  obtain ⟨⟨_, h2, h3, _⟩, hnone⟩ :=
    claim_C8_profile_blend (fun _ => 1) (4/5) (1/5) [1] [1] demoRawCandidate
      (by norm_num) (by norm_num [sum_sq]) (by norm_num) (by norm_num [sum_sq])
      (by norm_num) rfl
  exact ⟨h2, h3, (hnone demoRawCandidate).1⟩

/-! ## Claim C4 -/

/-- env0 is a trivial environment for concrete runs: no analysis rows, no
preferences, an empty concept catalog, an empty profile document and an
empty candidate store. -/
def env0 : Env :=
  ⟨Except.ok none, some [], none, Except.ok [], [], true, Except.ok [], fun _ => 1⟩

/-- C4 amended: an unspecified beta defaults to 1 - alpha (the run is
identical to passing 1 - alpha explicitly); when np.isclose(alpha + beta, 1)
fails, run_recommender raises ValueError synchronously — after the
users-table embedding-presence query that _warn_if_missing_embedding already
performed, but before the analysis, preference, concept and product store
accesses. -/
theorem claim_C4_beta_validation (env : Env) (ct : ℚ) (tn : ℕ) (mp : Option ℚ)
    (ioos : Bool) (alpha : ℚ) (pt : Option Str) :
    (run_recommender env ct tn mp ioos alpha none pt =
      run_recommender env ct tn mp ioos alpha (some (1 - alpha)) pt) ∧
    (∀ beta : ℚ, ¬ np_isclose (alpha + beta) 1 = true →
      run_recommender env ct tn mp ioos alpha (some beta) pt =
        ([StoreAccess.usersTable], Except.error (sOf "alpha + beta must equal 1.0"))) := by
  constructor
  · rfl
  · intro beta hne
    simp only [run_recommender, Option.getD_some]
    rw [if_pos hne]

/-- Witness for C4 amended at a concrete invalid beta. -/
theorem claim_C4_witness :
    (¬ np_isclose (1/2 + 3/5) 1 = true) ∧
    run_recommender env0 (1/2) 10 none false (1/2) (some (3/5)) none =
      ([StoreAccess.usersTable], Except.error (sOf "alpha + beta must equal 1.0")) := by
  have h : ¬ np_isclose (1/2 + 3/5) 1 = true := by
    with_unfolding_all decide
  exact ⟨h, (claim_C4_beta_validation env0 (1/2) 10 none false (1/2) none).2 (3/5) h⟩

/-- C4 counterexample: the users-table query of _warn_if_missing_embedding
happens before the alpha/beta validation, so a rejected request has already
touched the store (the access trace is nonempty at rejection); and a sum
alpha + beta = 1.000001, although not equal to 1.0, passes the np.isclose
check, so the request is not rejected. -/
theorem claim_C4_counterexample :
    ((run_recommender env0 (1/2) 10 none false (1/2) (some (3/5)) none).1 =
        [StoreAccess.usersTable] ∧
      (run_recommender env0 (1/2) 10 none false (1/2) (some (3/5)) none).2 =
        Except.error (sOf "alpha + beta must equal 1.0")) ∧
    ((4/5 + 200001/1000000 : ℚ) ≠ 1 ∧
      (run_recommender env0 (1/2) 10 none false (4/5) (some (200001/1000000)) none).2 =
        Except.ok ⟨[], 4/5, 200001/1000000, [], 0⟩) := by
  refine ⟨⟨by with_unfolding_all rfl, by with_unfolding_all rfl⟩, ⟨by norm_num, ?_⟩⟩
  with_unfolding_all rfl

/-! ## Invariant machinery for claims C1 and C10 -/

/-- sourcedSafe says a result entry originates from a catalog product that
passes the allergen safety check whenever preferences were supplied. -/
def sourcedSafe (products : List CatalogProduct) (prefs : Option UserPreferences)
    (info : ProductInfo) : Prop :=
  ∃ p ∈ products, info.id = p.id ∧ info.name = p.name ∧
    ∀ u : UserPreferences, prefs = some u → is_product_safe_for_user p u = some true

/-- sourcedSafe is monotone in the product list. -/
lemma sourcedSafe_mono {p0 : CatalogProduct} {products : List CatalogProduct}
    {prefs : Option UserPreferences} {info : ProductInfo} :
    sourcedSafe products prefs info → sourcedSafe (p0 :: products) prefs info := by
  rintro ⟨p, hp, h⟩
  exact ⟨p, List.mem_cons_of_mem _ hp, h⟩

/-- a product kept with a score by safety_and_score passed the safety check
whenever preferences were supplied. -/
lemma safety_and_score_safe (prefs : Option UserPreferences) (p : CatalogProduct) (s : ℚ)
    (h : safety_and_score prefs p = some (some s)) :
    ∀ u : UserPreferences, prefs = some u → is_product_safe_for_user p u = some true := by
  intro u hu
  subst hu
  simp only [safety_and_score] at h
  cases hps : is_product_safe_for_user p u with
  | none => simp [hps] at h
  | some b =>
    cases b with
    | false => simp [hps] at h
    | true => rfl

/-- the inner product loop appends a block of fresh, pairwise distinct,
safety-checked entries to all three accumulators at once. -/
lemma processProducts_spec (cids sids : List ℕ) (prefs : Option UserPreferences) :
    ∀ (prods : List CatalogProduct) (recommended : List ℕ) (cond allScored : List ProductInfo)
      (res : List ℕ × List ProductInfo × List ProductInfo),
      processProductsForCondition cids sids prefs recommended cond allScored prods = some res →
      ∃ ds : List ProductInfo,
        res.1 = recommended ++ ds.map (fun i => i.id) ∧
        res.2.1 = cond ++ ds ∧
        res.2.2 = allScored ++ ds ∧
        (ds.map (fun i => i.id)).Nodup ∧
        (∀ i ∈ ds.map (fun i => i.id), i ∉ recommended) ∧
        (∀ info ∈ ds, sourcedSafe prods prefs info) := by
  intro prods
  induction prods with
  | nil =>
    intro recommended cond allScored res h
    simp only [processProductsForCondition, Option.some_inj] at h
    refine ⟨[], ?_, ?_, ?_, by simp, by simp, by simp⟩ <;> simp [← h]
  | cons p rest ih =>
    intro recommended cond allScored res h
    simp only [processProductsForCondition] at h
    by_cases h0 : p.id = 0
    · rw [if_pos h0] at h
      obtain ⟨ds, h1, h2, h3, h4, h5, h6⟩ := ih recommended cond allScored res h
      exact ⟨ds, h1, h2, h3, h4, h5, fun info hi => sourcedSafe_mono (h6 info hi)⟩
    · rw [if_neg h0] at h
      by_cases hmem : p.id ∈ recommended
      · rw [if_pos hmem] at h
        obtain ⟨ds, h1, h2, h3, h4, h5, h6⟩ := ih recommended cond allScored res h
        exact ⟨ds, h1, h2, h3, h4, h5, fun info hi => sourcedSafe_mono (h6 info hi)⟩
      · rw [if_neg hmem] at h
        by_cases hmatch : ((cids.any fun cid => decide (cid ∈ p.concerns)) = true ∨
            (sids.any fun sid => decide (sid ∈ p.skinTypes)) = true)
        · rw [if_pos hmatch] at h
          cases hss : safety_and_score prefs p with
          | none => simp [hss] at h
          | some os =>
            cases os with
            | none =>
              simp only [hss] at h
              obtain ⟨ds, h1, h2, h3, h4, h5, h6⟩ := ih recommended cond allScored res h
              exact ⟨ds, h1, h2, h3, h4, h5, fun info hi => sourcedSafe_mono (h6 info hi)⟩
            | some score =>
              simp only [hss] at h
              obtain ⟨ds, h1, h2, h3, h4, h5, h6⟩ :=
                ih (recommended ++ [p.id])
                  (cond ++ [⟨p.id, score, p.name,
                    cids.any fun cid => decide (cid ∈ p.concerns),
                    sids.any fun sid => decide (sid ∈ p.skinTypes)⟩])
                  (allScored ++ [⟨p.id, score, p.name,
                    cids.any fun cid => decide (cid ∈ p.concerns),
                    sids.any fun sid => decide (sid ∈ p.skinTypes)⟩]) res h
              refine ⟨⟨p.id, score, p.name,
                cids.any fun cid => decide (cid ∈ p.concerns),
                sids.any fun sid => decide (sid ∈ p.skinTypes)⟩ :: ds, ?_, ?_, ?_, ?_, ?_, ?_⟩
              · rw [h1, List.append_assoc]; rfl
              · rw [h2, List.append_assoc]; rfl
              · rw [h3, List.append_assoc]; rfl
              · rw [List.map_cons, List.nodup_cons]
                refine ⟨fun hin => ?_, h4⟩
                exact (h5 _ hin) (List.mem_append_right _ (List.mem_singleton.mpr rfl))
              · intro i hi
                rw [List.map_cons, List.mem_cons] at hi
                rcases hi with hi | hi
                · rw [hi]; exact hmem
                · intro hrec
                  exact (h5 i hi) (List.mem_append_left _ hrec)
              · intro info hi
                rw [List.mem_cons] at hi
                rcases hi with hi | hi
                · exact ⟨p, List.mem_cons_self _ _, by rw [hi], by rw [hi],
                    safety_and_score_safe prefs p score hss⟩
                · exact sourcedSafe_mono (h6 info hi)
        · rw [if_neg hmatch] at h
          obtain ⟨ds, h1, h2, h3, h4, h5, h6⟩ := ih recommended cond allScored res h
          exact ⟨ds, h1, h2, h3, h4, h5, fun info hi => sourcedSafe_mono (h6 info hi)⟩

/-- resultsIds flattens the ids of every stored condition list. -/
def resultsIds (results : List (Str × List ProductInfo)) : List ℕ :=
  results.flatMap (fun kv => kv.2.map (fun i => i.id))

/-- resultsIds distributes over cons. -/
lemma resultsIds_cons (kv : Str × List ProductInfo) (rest : List (Str × List ProductInfo)) :
    resultsIds (kv :: rest) = kv.2.map (fun i => i.id) ++ resultsIds rest := rfl

/-- an entry of an updated dict is an old entry or the inserted pair. -/
lemma mem_dictInsert {β : Type} (d : List (Str × β)) (k : Str) (v : β) :
    ∀ kv ∈ dictInsert d k v, kv ∈ d ∨ kv = (k, v) := by
  induction d with
  | nil =>
    intro kv h
    rw [dictInsert, List.mem_singleton] at h
    exact Or.inr h
  | cons e rest ih =>
    rcases e with ⟨k0, v0⟩
    intro kv h
    rw [dictInsert] at h
    by_cases h0 : k0 = k
    · rw [if_pos h0, List.mem_cons] at h
      rcases h with h | h
      · exact Or.inr (by rw [h, h0])
      · exact Or.inl (List.mem_cons_of_mem _ h)
    · rw [if_neg h0, List.mem_cons] at h
      rcases h with h | h
      · exact Or.inl (by rw [h]; exact List.mem_cons_self _ _)
      · rcases ih kv h with h | h
        · exact Or.inl (List.mem_cons_of_mem _ h)
        · exact Or.inr h

/-- an id in an updated dict is an old id or an id of the inserted list. -/
lemma mem_resultsIds_dictInsert (c : Str) (v : List ProductInfo) :
    ∀ (d : List (Str × List ProductInfo)) (i : ℕ), i ∈ resultsIds (dictInsert d c v) →
      i ∈ resultsIds d ∨ i ∈ v.map (fun x => x.id) := by
  intro d
  induction d with
  | nil =>
    intro i h
    rw [dictInsert, resultsIds_cons] at h
    simp only [resultsIds, List.flatMap_nil, List.append_nil] at h
    exact Or.inr h
  | cons e rest ih =>
    rcases e with ⟨k0, v0⟩
    intro i h
    rw [dictInsert] at h
    by_cases h0 : k0 = c
    · rw [if_pos h0, resultsIds_cons] at h
      rcases List.mem_append.mp h with h | h
      · exact Or.inr h
      · exact Or.inl (by rw [resultsIds_cons]; exact List.mem_append_right _ h)
    · rw [if_neg h0, resultsIds_cons] at h
      rcases List.mem_append.mp h with h | h
      · exact Or.inl (by rw [resultsIds_cons]; exact List.mem_append_left _ h)
      · rcases ih i h with h | h
        · exact Or.inl (by rw [resultsIds_cons]; exact List.mem_append_right _ h)
        · exact Or.inr h

/-- inserting a list of fresh distinct ids keeps the flattened ids
duplicate-free, when the existing ids all lie in the recommended set and the
new ids all lie outside it. -/
lemma nodup_resultsIds_dictInsert (recommended : List ℕ) (c : Str) (v : List ProductInfo) :
    ∀ d : List (Str × List ProductInfo),
      (resultsIds d).Nodup →
      (∀ i ∈ resultsIds d, i ∈ recommended) →
      (v.map (fun x => x.id)).Nodup →
      (∀ i ∈ v.map (fun x => x.id), i ∉ recommended) →
      (resultsIds (dictInsert d c v)).Nodup := by
  intro d
  induction d with
  | nil =>
    intro _ _ h3 _
    rw [dictInsert, resultsIds_cons]
    simpa [resultsIds] using h3
  | cons e rest ih =>
    rcases e with ⟨k0, v0⟩
    intro h1 h2 h3 h4
    rw [resultsIds_cons] at h1 h2
    rw [dictInsert]
    by_cases h0 : k0 = c
    · rw [if_pos h0, resultsIds_cons]
      rw [List.nodup_append] at h1 ⊢
      refine ⟨h3, h1.2.1, fun i hi hj => ?_⟩
      exact h4 i hi (h2 i (List.mem_append_right _ hj))
    · rw [if_neg h0, resultsIds_cons]
      rw [List.nodup_append] at h1 ⊢
      refine ⟨h1.1, ih h1.2.1 (fun i hi => h2 i (List.mem_append_right _ hi)) h3 h4,
        fun i hi hins => ?_⟩
      rcases mem_resultsIds_dictInsert c v rest i hins with hold | hv
      · exact h1.2.2 hi hold
      · exact h4 i hv (h2 i (List.mem_append_left _ hi))

/-- membership in a truncated stable sort implies membership in the list. -/
lemma mem_sorted_take {l : List ProductInfo} {n : ℕ} {x : ProductInfo}
    (h : x ∈ (sortByScoreDesc l).take n) : x ∈ l := by
  have hs : x ∈ sortByScoreDesc l := (List.take_sublist n _).subset h
  exact (List.perm_insertionSort _ l).subset hs

/-- truncated stable sorting preserves duplicate-freeness of the ids. -/
lemma nodup_ids_sorted_take (l : List ProductInfo) (n : ℕ)
    (h : (l.map (fun i => i.id)).Nodup) :
    (((sortByScoreDesc l).take n).map (fun i => i.id)).Nodup := by
  have hperm : ((sortByScoreDesc l).map (fun i => i.id)).Perm (l.map (fun i => i.id)) :=
    (List.perm_insertionSort _ l).map _
  have hnodup2 : ((sortByScoreDesc l).map (fun i => i.id)).Nodup := hperm.nodup_iff.mpr h
  exact ((List.take_sublist n _).map _).nodup hnodup2

/-- the outer condition loop preserves the result invariants: flattened ids
stay duplicate-free and inside the recommended set, and every stored or
scored entry is sourced from a safety-checked product. -/
lemma processConditions_spec (products : List CatalogProduct) (prefs : Option UserPreferences)
    (maxPer : ℕ) :
    ∀ (conds : List Str) (recommended : List ℕ) (allScored : List ProductInfo)
      (results : List (Str × List ProductInfo))
      (res : List ProductInfo × List (Str × List ProductInfo)),
      processConditions products prefs maxPer recommended allScored results conds = some res →
      (resultsIds results).Nodup →
      (∀ i ∈ resultsIds results, i ∈ recommended) →
      (∀ kv ∈ results, ∀ info ∈ kv.2, sourcedSafe products prefs info) →
      (∀ info ∈ allScored, sourcedSafe products prefs info) →
      ((resultsIds res.2).Nodup ∧
        (∀ kv ∈ res.2, ∀ info ∈ kv.2, sourcedSafe products prefs info) ∧
        (∀ info ∈ res.1, sourcedSafe products prefs info)) := by
  intro conds
  induction conds with
  | nil =>
    intro recommended allScored results res h hnd hrec hres hall
    simp only [processConditions, Option.some_inj] at h
    rw [← h]
    exact ⟨hnd, hres, hall⟩
  | cons c cs ih =>
    intro recommended allScored results res h hnd hrec hres hall
    simp only [processConditions] at h
    by_cases hids : ((find_matching_ids c).1 ≠ [] ∨ (find_matching_ids c).2 ≠ [])
    · rw [if_pos hids] at h
      cases hstep : processProductsForCondition (find_matching_ids c).1 (find_matching_ids c).2
          prefs recommended [] allScored products with
      | none => rw [hstep] at h; exact absurd h (by simp)
      | some tri =>
        obtain ⟨rec2, condProducts, all2⟩ := tri
        simp only [hstep] at h
        obtain ⟨ds, hd1, hd2, hd3, hd4, hd5, hd6⟩ :=
          processProducts_spec _ _ prefs products recommended [] allScored _ hstep
        simp only [List.nil_append] at hd2
        rw [hd2] at h
        have hd1r : rec2 = recommended ++ List.map (fun i => i.id) ds := hd1
        have hd3r : all2 = allScored ++ ds := hd3
        have hlim_mem : ∀ x ∈ (if prefs.isSome ∧ ds ≠ [] then sortByScoreDesc ds
            else ds).take maxPer, x ∈ ds := by
          intro x hx
          by_cases hb : prefs.isSome ∧ ds ≠ []
          · rw [if_pos hb] at hx
            exact mem_sorted_take hx
          · rw [if_neg hb] at hx
            exact (List.take_sublist maxPer ds).subset hx
        have hlim_nodup : (((if prefs.isSome ∧ ds ≠ [] then sortByScoreDesc ds
            else ds).take maxPer).map (fun i => i.id)).Nodup := by
          by_cases hb : prefs.isSome ∧ ds ≠ []
          · rw [if_pos hb]
            exact nodup_ids_sorted_take ds maxPer hd4
          · rw [if_neg hb]
            exact (((List.take_sublist maxPer ds).map _)).nodup hd4
        have hlim_fresh : ∀ i ∈ (((if prefs.isSome ∧ ds ≠ [] then sortByScoreDesc ds
            else ds).take maxPer).map (fun i => i.id)), i ∉ recommended := by
          intro i hi
          obtain ⟨x, hx, hxi⟩ := List.mem_map.mp hi
          rw [← hxi]
          exact hd5 _ (List.mem_map_of_mem _ (hlim_mem x hx))
        refine ih rec2 all2 _ res h ?_ ?_ ?_ ?_
        · exact nodup_resultsIds_dictInsert recommended c _ results hnd hrec hlim_nodup hlim_fresh
        · intro i hi
          rcases mem_resultsIds_dictInsert c _ results i hi with hold | hnew
          · rw [hd1r]; exact List.mem_append_left _ (hrec i hold)
          · rw [hd1r]
            refine List.mem_append_right _ ?_
            obtain ⟨x, hx, hxi⟩ := List.mem_map.mp hnew
            rw [← hxi]
            exact List.mem_map_of_mem _ (hlim_mem x hx)
        · intro kv hkv info hinfo
          rcases mem_dictInsert results c _ kv hkv with hold | hnewkv
          · exact hres kv hold info hinfo
          · rw [hnewkv] at hinfo
            exact hd6 info (hlim_mem info hinfo)
        · rw [hd3r]
          intro info hinfo
          rcases List.mem_append.mp hinfo with hinfo | hinfo
          · exact hall info hinfo
          · exact hd6 info hinfo
    · rw [if_neg hids] at h
      simp only [] at h
      have hlim : (if prefs.isSome ∧ ([] : List ProductInfo) ≠ [] then
          sortByScoreDesc [] else []).take maxPer = [] := by
        simp
      refine ih recommended allScored _ res h ?_ ?_ ?_ hall
      · rw [hlim] at h ⊢
        exact nodup_resultsIds_dictInsert recommended c [] results hnd hrec (by simp) (by simp)
      · intro i hi
        rw [hlim] at hi
        rcases mem_resultsIds_dictInsert c [] results i hi with hold | hnew
        · exact hrec i hold
        · exact absurd hnew (by simp)
      · intro kv hkv info hinfo
        rw [hlim] at hkv
        rcases mem_dictInsert results c [] kv hkv with hold | hnewkv
        · exact hres kv hold info hinfo
        · rw [hnewkv] at hinfo
          exact absurd hinfo (by simp)

/-- a per-allergen safety check follows from the whole-list safety check. -/
lemma is_safe_for_user_singleton (t : Str) (L : List Str) (x : Str)
    (h : is_safe_for_user t L = true) (hx : x ∈ L) :
    is_safe_for_user t [x] = true := by
  unfold is_safe_for_user detect_allergens at h ⊢
  simp only [decide_eq_true_eq, List.length_eq_zero] at h ⊢
  rw [List.filter_eq_nil_iff] at h
  rw [List.filter_eq_nil_iff]
  intro a ha
  rw [List.mem_singleton] at ha
  rw [ha]
  exact h x hx

/-- the whole-list safety verdict specializes to each declared, resolvable
allergen id. -/
lemma safe_for_each_declared (p : CatalogProduct) (u : UserPreferences)
    (hps : is_product_safe_for_user p u = some true)
    (aid : ℕ) (ha : aid ∈ u.allergenicIngredients) (h0 : aid ≠ 0)
    (nm : Str) (hnm : lookupId AllergenicIngredients aid = some nm) :
    is_safe_for_user (product_content p) [nm] = true := by
  unfold is_product_safe_for_user at hps
  by_cases h1 : u.allergenicIngredients = [] ∨ u.allergenicIngredients = [0]
  · rcases h1 with h1 | h1
    · rw [h1] at ha; exact absurd ha (by simp)
    · rw [h1, List.mem_singleton] at ha
      exact absurd ha h0
  · rw [if_neg h1] at hps
    have haf : aid ∈ u.allergenicIngredients.filter (fun a => decide (a ≠ 0)) :=
      List.mem_filter.mpr ⟨ha, by simp [h0]⟩
    have hnm_mem : some nm ∈ (u.allergenicIngredients.filter (fun a => decide (a ≠ 0))).map
        (fun a => lookupId AllergenicIngredients a) := by
      refine List.mem_map.mpr ⟨aid, haf, hnm⟩
    have hne : (u.allergenicIngredients.filter (fun a => decide (a ≠ 0))).map
        (fun a => lookupId AllergenicIngredients a) ≠ [] :=
      List.ne_nil_of_mem hnm_mem
    rw [if_neg hne] at hps
    by_cases hcn : ((u.allergenicIngredients.filter (fun a => decide (a ≠ 0))).map
        (fun a => lookupId AllergenicIngredients a)).contains none = true
    · rw [if_pos hcn] at hps
      exact absurd hps (by simp)
    · rw [if_neg hcn] at hps
      have hsafeL := Option.some_inj.mp hps
      have hnmr : nm ∈ ((u.allergenicIngredients.filter (fun a => decide (a ≠ 0))).map
          (fun a => lookupId AllergenicIngredients a)).reduceOption := by
        rw [List.reduceOption_mem_iff]
        exact hnm_mem
      exact is_safe_for_user_singleton _ _ _ hsafeL hnmr

/-! ## Claim C1 -/

/-- C1: in the rule-scored pipeline with user preferences supplied, every
product in every condition list of the detailed output (top_score included)
comes from a catalog product that passes is_product_safe_for_user, and hence
is_safe_for_user holds for the concatenated contents/activeContent text
against each declared, resolvable allergen individually — a product whose
text contains a declared allergen term never appears. -/
theorem claim_C1_allergen_safety (analysisData : List AnalysisItem)
    (products : List CatalogProduct) (threshold : ℚ) (maxPer : ℕ) (u : UserPreferences)
    (out : List (Str × List ProductInfo))
    (hrun : filter_products_by_skin_analysis_api analysisData products threshold maxPer
      (some u) = some out)
    (c : Str) (l : List ProductInfo) (hcl : (c, l) ∈ out) (info : ProductInfo)
    (hinfo : info ∈ l) :
    ∃ p ∈ products, info.id = p.id ∧ is_product_safe_for_user p u = some true ∧
      ∀ aid ∈ u.allergenicIngredients, aid ≠ 0 →
        ∀ nm : Str, lookupId AllergenicIngredients aid = some nm →
          is_safe_for_user (product_content p) [nm] = true := by
  rw [filter_products_by_skin_analysis_api] at hrun
  cases hpc : processConditions products (some u) maxPer [] [] []
      (qualifyingConditions analysisData threshold) with
  | none => rw [hpc] at hrun; exact absurd hrun (by simp)
  | some pres =>
    obtain ⟨allScored, results⟩ := pres
    rw [hpc] at hrun
    simp only [Option.some_inj] at hrun
    obtain ⟨hnd, hsaferes, hsafeall⟩ :=
      processConditions_spec products (some u) maxPer _ [] [] _ _ hpc
        (by simp [resultsIds]) (by simp [resultsIds]) (by simp) (by simp)
    have hsourced : sourcedSafe products (some u) info := by
      by_cases htop : (Option.some u).isSome ∧ allScored ≠ []
      · rw [if_pos htop] at hrun
        rw [← hrun] at hcl
        rcases mem_dictInsert results _ _ _ hcl with hold | heq
        · exact hsaferes _ hold info hinfo
        · have hl : l = (sortByScoreDesc allScored).take 2 := congrArg Prod.snd heq
          rw [hl] at hinfo
          exact hsafeall info (mem_sorted_take hinfo)
      · rw [if_neg htop] at hrun
        rw [← hrun] at hcl
        exact hsaferes _ hcl info hinfo
    obtain ⟨p, hp, hid, hname, hsafe⟩ := hsourced
    have hps := hsafe u rfl
    exact ⟨p, hp, hid, hps, fun aid ha h0 nm hnm =>
      safe_for_each_declared p u hps aid ha h0 nm hnm⟩

/-- demoAnalysisC1 reports acne with confidence 0.9. -/
def demoAnalysisC1 : List AnalysisItem := [⟨sOf "acne", 9/10⟩]

/-- demoSafeProduct matches the acne concern and contains no allergen. -/
def demoSafeProduct : CatalogProduct :=
  ⟨1, sOf "Safe Cream", sOf "", sOf "", sOf "water, glycerin", sOf "", [1], []⟩

/-- demoUnsafeProduct matches the acne concern but contains methylparaben. -/
def demoUnsafeProduct : CatalogProduct :=
  ⟨2, sOf "Paraben Cream", sOf "", sOf "", sOf "water, methylparaben", sOf "", [1], []⟩

/-- demoPrefsC1 declares concern 1 and allergen 107 (Methylparaben). -/
def demoPrefsC1 : UserPreferences := ⟨0, [1], [107], 0, 0, [], [], [], 0, 0, 0⟩

/-- demoInfoC1 is the expected output entry for the safe product. -/
def demoInfoC1 : ProductInfo := ⟨1, 2/5, sOf "Safe Cream", true, false⟩

/-- Witness for C1: in the concrete run the paraben product is excluded and
the returned safe product passes every safety check. -/
theorem claim_C1_witness :
    ∃ p ∈ [demoSafeProduct, demoUnsafeProduct], demoInfoC1.id = p.id ∧
      is_product_safe_for_user p demoPrefsC1 = some true ∧
      ∀ aid ∈ demoPrefsC1.allergenicIngredients, aid ≠ 0 →
        ∀ nm : Str, lookupId AllergenicIngredients aid = some nm →
          is_safe_for_user (product_content p) [nm] = true :=
  claim_C1_allergen_safety demoAnalysisC1 [demoSafeProduct, demoUnsafeProduct] (1/2) 5
    demoPrefsC1 [(sOf "acne", [demoInfoC1]), (sOf "top_score", [demoInfoC1])]
    (by with_unfolding_all rfl) (sOf "acne") [demoInfoC1] (List.mem_cons_self _ _)
    demoInfoC1 (List.mem_cons_self _ _)

/-! ## Claim C10 -/

/-- C10: in the detailed output, the per-condition lists (top_score aside)
are pairwise disjoint on product ids — a product recommended under an
earlier-processed condition is skipped for every later condition. -/
theorem claim_C10_condition_lists_disjoint (analysisData : List AnalysisItem)
    (products : List CatalogProduct) (threshold : ℚ) (maxPer : ℕ)
    (prefs : Option UserPreferences) (out : List (Str × List ProductInfo))
    (hrun : filter_products_by_skin_analysis_api analysisData products threshold maxPer
      prefs = some out)
    (c1 c2 : Str) (l1 l2 : List ProductInfo)
    (h1 : (c1, l1) ∈ out) (h2 : (c2, l2) ∈ out) (hcc : c1 ≠ c2)
    (ht1 : c1 ≠ sOf "top_score") (ht2 : c2 ≠ sOf "top_score")
    (i1 : ProductInfo) (hi1 : i1 ∈ l1) (i2 : ProductInfo) (hi2 : i2 ∈ l2) :
    i1.id ≠ i2.id := by
  rw [filter_products_by_skin_analysis_api] at hrun
  cases hpc : processConditions products prefs maxPer [] [] []
      (qualifyingConditions analysisData threshold) with
  | none => rw [hpc] at hrun; exact absurd hrun (by simp)
  | some pres =>
    obtain ⟨allScored, results⟩ := pres
    rw [hpc] at hrun
    simp only [Option.some_inj] at hrun
    obtain ⟨hnd, _, _⟩ :=
      processConditions_spec products prefs maxPer _ [] [] _ _ hpc
        (by simp [resultsIds]) (by simp [resultsIds]) (by simp) (by simp)
    have hmem : ∀ (c : Str) (l : List ProductInfo), (c, l) ∈ out → c ≠ sOf "top_score" →
        (c, l) ∈ results := by
      intro c l hcl hct
      by_cases htop : prefs.isSome ∧ allScored ≠ []
      · rw [if_pos htop] at hrun
        rw [← hrun] at hcl
        rcases mem_dictInsert results _ _ _ hcl with hold | heq
        · exact hold
        · exact absurd (congrArg Prod.fst heq) hct
      · rw [if_neg htop] at hrun
        rw [← hrun] at hcl
        exact hcl
    have hm1 := hmem c1 l1 h1 ht1
    have hm2 := hmem c2 l2 h2 ht2
    have hpair := (List.nodup_flatMap.mp hnd).2
    have hsym : Symmetric (List.Disjoint on fun kv : Str × List ProductInfo =>
        kv.2.map (fun i => i.id)) := fun _ _ h => h.symm
    have hne : (c1, l1) ≠ (c2, l2) := fun h => hcc (congrArg Prod.fst h)
    have hdisj := hpair.forall hsym hm1 hm2 hne
    intro heq
    exact hdisj (List.mem_map_of_mem _ hi1) (heq ▸ List.mem_map_of_mem (fun i => i.id) hi2)

/-- demoAnalysisC10 reports two conditions above the threshold. -/
def demoAnalysisC10 : List AnalysisItem := [⟨sOf "acne", 9/10⟩, ⟨sOf "moisture", 8/10⟩]

/-- demoProductA matches only the acne condition. -/
def demoProductA : CatalogProduct := ⟨1, sOf "A", sOf "", sOf "", sOf "", sOf "", [1], []⟩

/-- demoProductB matches only the moisture condition. -/
def demoProductB : CatalogProduct := ⟨2, sOf "B", sOf "", sOf "", sOf "", sOf "", [2], []⟩

/-- demoInfoA is the output entry of product A under acne. -/
def demoInfoA : ProductInfo := ⟨1, 0, sOf "A", true, false⟩

/-- demoInfoB is the output entry of product B under moisture. -/
def demoInfoB : ProductInfo := ⟨2, 0, sOf "B", true, false⟩

/-- Witness for C10 on a concrete two-condition run. -/
theorem claim_C10_witness :
    filter_products_by_skin_analysis_api demoAnalysisC10 [demoProductA, demoProductB]
      (1/2) 5 none = some [(sOf "acne", [demoInfoA]), (sOf "moisture", [demoInfoB])] ∧
    demoInfoA.id ≠ demoInfoB.id :=
  ⟨by with_unfolding_all rfl,
   claim_C10_condition_lists_disjoint demoAnalysisC10 [demoProductA, demoProductB] (1/2) 5
     none [(sOf "acne", [demoInfoA]), (sOf "moisture", [demoInfoB])]
     (by with_unfolding_all rfl) (sOf "acne") (sOf "moisture") [demoInfoA] [demoInfoB]
     (List.mem_cons_self _ _) (List.mem_cons_of_mem _ (List.mem_cons_self _ _))
     (by decide) (by decide) (by decide) demoInfoA (List.mem_cons_self _ _)
     demoInfoB (List.mem_cons_self _ _)⟩

/-! ## quick sanity examples (not claim theorems) -/

example : lowerStr (sOf "MethylParaben") = sOf "methylparaben" := by decide

example : containsSub (sOf "water, methylparaben, glycerin") (sOf "methylparaben") = true := by
  decide

example : is_safe_for_user (sOf "water, methylparaben") [sOf "Methylparaben"] = false := by
  decide

example : is_safe_for_user (sOf "water, glycerin") [sOf "Methylparaben"] = true := by
  decide

example : generate_fallback_terms (sOf "RoseOil") =
    [sOf "roseoil", sOf "rose", sOf "rose oil"] := by decide

example : find_matching_ids (sOf "acne") = ([1, 7], []) := by decide

example : find_matching_ids (sOf "moisture") = ([2], []) := by decide



